import Mathlib

namespace Critic2Gui

/-!
The critic2 GUI front-end: menu bar and key bindings.

Shallow embedding of `src/src-gui/keybinding.h` (the bind-action and pseudo-key
constants) and of `src/src-gui/attic_old/menu.cpp` (`show_menu_bar`), followed by
the properties established about them.

Conventions of the embedding.

* The widget library and the file dialog are external.  One call of
  `show_menu_bar` is run against a `Frame`, which fixes the value every external
  call returns during that call, as a function of the call site and of the
  arguments the code passes.
* Calls into the `c2` backend, the call of `settings.set_flags_and_cam` and the
  invocation of the file dialog are recorded, in program order, in a log of
  `Call` values.  The backend calls act on backend data only; the library sizes
  `c2::nlib_crys` and `c2::nlib_mol` keep one value during a frame.
* `settings.set_flags_and_cam` is a method of the `settings` object whose body is
  not part of the two source files.  Besides being logged, it acts on the
  settings through a function parameter `sfc`; every result holds for every `sfc`.
* The tooltip timer (`time0`, `reset`, `AttachTooltip`) is floating-point
  book-keeping that no other variable depends on; it is left out.
-/

/-! ## `keybinding.h` -/

/-- Macro `#define NOKEY 0` -/
def NOKEY : Int := 0

/-- Macro `#define NOMOD 0x0000` -/
def NOMOD : Int := 0x0000

/-- The largest value of a 32-bit `int`. -/
def INT_MAX : Int := 2147483647

/-- The value of a 32-bit `int` computation whose mathematical result is `x`:
`x` itself when it lies in `-2^31 .. 2^31-1`, and otherwise the representative of
`x` modulo `2^32` in that range. -/
def int32 (x : Int) : Int := (x + 2147483648) % 4294967296 - 2147483648

/-- Macro `#define GLFW_MOUSE_LEFT GLFW_KEY_LAST+1`; `GLFW_KEY_LAST` comes from the GLFW
header and is a parameter.  The macro body is an `int` sum. -/
def GLFW_MOUSE_LEFT (GLFW_KEY_LAST : Int) : Int := int32 (GLFW_KEY_LAST + 1)
/-- Macro `#define GLFW_MOUSE_LEFT_DOUBLE GLFW_KEY_LAST+2` -/
def GLFW_MOUSE_LEFT_DOUBLE (GLFW_KEY_LAST : Int) : Int := int32 (GLFW_KEY_LAST + 2)
/-- Macro `#define GLFW_MOUSE_RIGHT GLFW_KEY_LAST+3` -/
def GLFW_MOUSE_RIGHT (GLFW_KEY_LAST : Int) : Int := int32 (GLFW_KEY_LAST + 3)
/-- Macro `#define GLFW_MOUSE_RIGHT_DOUBLE GLFW_KEY_LAST+4` -/
def GLFW_MOUSE_RIGHT_DOUBLE (GLFW_KEY_LAST : Int) : Int := int32 (GLFW_KEY_LAST + 4)
/-- Macro `#define GLFW_MOUSE_MIDDLE GLFW_KEY_LAST+5` -/
def GLFW_MOUSE_MIDDLE (GLFW_KEY_LAST : Int) : Int := int32 (GLFW_KEY_LAST + 5)
/-- Macro `#define GLFW_MOUSE_MIDDLE_DOUBLE GLFW_KEY_LAST+6` -/
def GLFW_MOUSE_MIDDLE_DOUBLE (GLFW_KEY_LAST : Int) : Int := int32 (GLFW_KEY_LAST + 6)
/-- Macro `#define GLFW_MOUSE_BUTTON3 GLFW_KEY_LAST+7` -/
def GLFW_MOUSE_BUTTON3 (GLFW_KEY_LAST : Int) : Int := int32 (GLFW_KEY_LAST + 7)
/-- Macro `#define GLFW_MOUSE_BUTTON3_DOUBLE GLFW_KEY_LAST+8` -/
def GLFW_MOUSE_BUTTON3_DOUBLE (GLFW_KEY_LAST : Int) : Int := int32 (GLFW_KEY_LAST + 8)
/-- Macro `#define GLFW_MOUSE_BUTTON4 GLFW_KEY_LAST+9` -/
def GLFW_MOUSE_BUTTON4 (GLFW_KEY_LAST : Int) : Int := int32 (GLFW_KEY_LAST + 9)
/-- Macro `#define GLFW_MOUSE_BUTTON4_DOUBLE GLFW_KEY_LAST+10` -/
def GLFW_MOUSE_BUTTON4_DOUBLE (GLFW_KEY_LAST : Int) : Int := int32 (GLFW_KEY_LAST + 10)
/-- Macro `#define GLFW_MOUSE_SCROLL GLFW_KEY_LAST+11` -/
def GLFW_MOUSE_SCROLL (GLFW_KEY_LAST : Int) : Int := int32 (GLFW_KEY_LAST + 11)

/-- The eleven mouse pseudo-key codes, in the order of their definition. -/
def mouseKeys (GLFW_KEY_LAST : Int) : List Int :=
  [GLFW_MOUSE_LEFT GLFW_KEY_LAST, GLFW_MOUSE_LEFT_DOUBLE GLFW_KEY_LAST,
   GLFW_MOUSE_RIGHT GLFW_KEY_LAST, GLFW_MOUSE_RIGHT_DOUBLE GLFW_KEY_LAST,
   GLFW_MOUSE_MIDDLE GLFW_KEY_LAST, GLFW_MOUSE_MIDDLE_DOUBLE GLFW_KEY_LAST,
   GLFW_MOUSE_BUTTON3 GLFW_KEY_LAST, GLFW_MOUSE_BUTTON3_DOUBLE GLFW_KEY_LAST,
   GLFW_MOUSE_BUTTON4 GLFW_KEY_LAST, GLFW_MOUSE_BUTTON4_DOUBLE GLFW_KEY_LAST,
   GLFW_MOUSE_SCROLL GLFW_KEY_LAST]

/-- The eleven mouse pseudo-key codes are pairwise distinct, and each of them is
strictly greater than `GLFW_KEY_LAST`, differs from every key code
`k ≤ GLFW_KEY_LAST`, and differs from `NOKEY`. -/
def MouseKeysBeyondKeyboard (GLFW_KEY_LAST : Int) : Prop :=
  (mouseKeys GLFW_KEY_LAST).Nodup ∧
  ∀ m ∈ mouseKeys GLFW_KEY_LAST,
    GLFW_KEY_LAST < m ∧ (∀ k : Int, k ≤ GLFW_KEY_LAST → m ≠ k) ∧ m ≠ NOKEY

/-- Macro `#define BIND_QUIT 0`: quit the program. -/
def BIND_QUIT : Nat := 0
/-- Macro `#define BIND_CLOSE_LAST_DIALOG 1`: closes the last window. -/
def BIND_CLOSE_LAST_DIALOG : Nat := 1
/-- Macro `#define BIND_CLOSE_ALL_DIALOGS 2`: closes all windows. -/
def BIND_CLOSE_ALL_DIALOGS : Nat := 2
/-- Macro `#define BIND_NAV_ROTATE 3`: rotate the camera. -/
def BIND_NAV_ROTATE : Nat := 3
/-- Macro `#define BIND_NAV_TRANSLATE 4`: camera pan. -/
def BIND_NAV_TRANSLATE : Nat := 4
/-- Macro `#define BIND_NAV_ZOOM 5`: camera zoom. -/
def BIND_NAV_ZOOM : Nat := 5
/-- Macro `#define BIND_NAV_RESET 6`: reset the view. -/
def BIND_NAV_RESET : Nat := 6
/-- Macro `#define BIND_MAX 7`: total number of bind actions. -/
def BIND_MAX : Nat := 7

/-- The seven bind actions, in the order of their definition.  The tables
`BindNames`, `BindGroups`, `modbind` and `keybind` are declared with `BIND_MAX`
entries, so an index `b` is in bounds for them exactly when `b < BIND_MAX`. -/
def bindActions : List Nat :=
  [BIND_QUIT, BIND_CLOSE_LAST_DIALOG, BIND_CLOSE_ALL_DIALOGS, BIND_NAV_ROTATE,
   BIND_NAV_TRANSLATE, BIND_NAV_ZOOM, BIND_NAV_RESET]

/-! ## `menu.cpp`: data -/

/-- The fields of the global `settings` object that `show_menu_bar` reads or
writes. -/
structure Settings where
  preview_mode : Bool
  want_quit : Bool
  close_all_windows : Bool
  show_bonds : Bool
  show_cps : Bool
  show_atoms : Bool
  show_cell : Bool
  deriving DecidableEq

/-- The program variables of `show_menu_bar`: the `settings` object, the four
window handles and the two function-local statics `firstpass` and `getfile`. -/
structure State where
  settings : Settings
  structurenew_window_h : Bool
  structureopen_window_h : Int
  structureinfo_window_h : Bool
  console_window_h : Bool
  firstpass : Bool
  getfile : Int
  deriving DecidableEq

/-- An external call that `show_menu_bar` makes, with its arguments.  The two
box lengths passed to `set_flags_and_cam` are backend floats and are not
recorded. -/
inductive Call where
  | open_structure_from_library (index : Int) (ismolecule : Int)
  | set_flags_and_cam (ismolecule : Bool)
  | clear_scene (flag : Bool)
  | call_auto
  | chooseFileDialog (firstpass : Bool)
  | set_library_file (filename : String) (mode : Int)
  deriving DecidableEq

/-- The `BeginMenu` call sites. -/
inductive Menu where
  | File | CrystalLibrary | MoleculeLibrary | Calculate | View
  deriving DecidableEq

/-- The `MenuItem` call sites.  The two `Choose file` items and the library
entries are told apart by the menu they sit in, as the widget library does. -/
inductive Item where
  | New | OpenCrystal | OpenMolecule
  | CrystalChooseFile | CrystalEntry (i : Nat)
  | MoleculeChooseFile | MoleculeEntry (i : Nat)
  | OpenRecent | Close | Quit
  | GenerateCriticalPoints
  | ToggleBonds | ToggleCriticalPoints | ToggleAtoms | ToggleCell
  | ShowStructureInformation | Console | CloseAllWindows
  deriving DecidableEq

/-- What the environment answers during one call of `show_menu_bar`.

* `BeginMenu m enabled` and `MenuItem it selected enabled` are the return values
  of the widget calls at that call site with those arguments.
* `nlib_crys`, `nlib_mol` are the backend's library sizes, as read by the loops.
* `chooseFileDialog firstpass` is the filename the dialog returns and
  `hasUserJustCancelledDialog firstpass` the cancel flag it then reports. -/
structure Frame where
  BeginMainMenuBar : Bool
  BeginMenu : Menu → Bool → Bool
  MenuItem : Item → Bool → Bool → Bool
  nlib_crys : Int
  nlib_mol : Int
  chooseFileDialog : Bool → String
  hasUserJustCancelledDialog : Bool → Bool

/-- The program variables together with the log of external calls made so far
in the current call of `show_menu_bar`. -/
structure World where
  st : State
  calls : List Call
  deriving DecidableEq

/-- Record an external call at the end of the log. -/
def World.call (w : World) (c : Call) : World :=
  { w with calls := w.calls ++ [c] }

/-! ## `menu.cpp`: `show_menu_bar` -/

/-- Lines 39-49: the items `New`, `Open crystal`, `Open molecule`. -/
def fileOpenItems (fr : Frame) (w : World) : World :=
  let w := if fr.MenuItem .New false (!w.st.settings.preview_mode) then
      { w with st := { w.st with structurenew_window_h := true } } else w
  let w := if fr.MenuItem .OpenCrystal false (!w.st.settings.preview_mode) then
      { w with st := { w.st with structureopen_window_h := 2 } } else w
  let w := if fr.MenuItem .OpenMolecule false (!w.st.settings.preview_mode) then
      { w with st := { w.st with structureopen_window_h := 1 } } else w
  w

/-- Lines 56-59: the body of the crystal-library loop for index `i`. -/
def crystalEntry (sfc : Bool → Settings → Settings) (fr : Frame) (w : World) (i : Nat) :
    World :=
  if fr.MenuItem (.CrystalEntry i) false true then
    let w := w.call (.open_structure_from_library ((i : Int) + 1) 0)
    let w := { w with st := { w.st with settings := sfc false w.st.settings } }
    w.call (.set_flags_and_cam false)
  else w

/-- Lines 51-62: the `Crystal library` sub-menu. -/
def crystalLibraryMenu (sfc : Bool → Settings → Settings) (fr : Frame) (w : World) :
    World :=
  if fr.BeginMenu .CrystalLibrary (!w.st.settings.preview_mode) then
    let w := if fr.MenuItem .CrystalChooseFile false true then
        { w with st := { w.st with getfile := 1 } } else w
    (List.range fr.nlib_crys.toNat).foldl (crystalEntry sfc fr) w
  else w

/-- Lines 70-73: the body of the molecule-library loop for index `i`. -/
def moleculeEntry (sfc : Bool → Settings → Settings) (fr : Frame) (w : World) (i : Nat) :
    World :=
  if fr.MenuItem (.MoleculeEntry i) false true then
    let w := w.call (.open_structure_from_library ((i : Int) + 1) 1)
    let w := { w with st := { w.st with settings := sfc true w.st.settings } }
    w.call (.set_flags_and_cam true)
  else w

/-- Lines 65-76: the `Molecule library` sub-menu. -/
def moleculeLibraryMenu (sfc : Bool → Settings → Settings) (fr : Frame) (w : World) :
    World :=
  if fr.BeginMenu .MoleculeLibrary (!w.st.settings.preview_mode) then
    let w := if fr.MenuItem .MoleculeChooseFile false true then
        { w with st := { w.st with getfile := 2 } } else w
    (List.range fr.nlib_mol.toNat).foldl (moleculeEntry sfc fr) w
  else w

/-- Lines 79-88: `Open recent` (always disabled, empty body), `Close`, `Quit`. -/
def fileCloseItems (fr : Frame) (w : World) : World :=
  let w := if fr.MenuItem .OpenRecent false false then w else w
  let w := if fr.MenuItem .Close false (!w.st.settings.preview_mode) then
      w.call (.clear_scene true) else w
  let w := if fr.MenuItem .Quit false true then
      { w with st := { w.st with settings := { w.st.settings with want_quit := true } } }
    else w
  w

/-- Lines 38-93: the `File` menu. -/
def fileMenu (sfc : Bool → Settings → Settings) (fr : Frame) (w : World) : World :=
  if fr.BeginMenu .File true then
    fileCloseItems fr (moleculeLibraryMenu sfc fr (crystalLibraryMenu sfc fr
      (fileOpenItems fr w)))
  else w

/-- Lines 94-99: the `Calculate` menu. -/
def calculateMenu (fr : Frame) (w : World) : World :=
  if fr.BeginMenu .Calculate true then
    if fr.MenuItem .GenerateCriticalPoints false (!w.st.settings.preview_mode) then
      w.call .call_auto
    else w
  else w

/-- Lines 100-124: the `View` menu. -/
def viewMenu (fr : Frame) (w : World) : World :=
  if fr.BeginMenu .View true then
    let w := if fr.MenuItem .ToggleBonds w.st.settings.show_bonds true then
        { w with st := { w.st with settings :=
          { w.st.settings with show_bonds := !w.st.settings.show_bonds } } } else w
    let w := if fr.MenuItem .ToggleCriticalPoints w.st.settings.show_cps true then
        { w with st := { w.st with settings :=
          { w.st.settings with show_cps := !w.st.settings.show_cps } } } else w
    let w := if fr.MenuItem .ToggleAtoms w.st.settings.show_atoms true then
        { w with st := { w.st with settings :=
          { w.st.settings with show_atoms := !w.st.settings.show_atoms } } } else w
    let w := if fr.MenuItem .ToggleCell w.st.settings.show_cell true then
        { w with st := { w.st with settings :=
          { w.st.settings with show_cell := !w.st.settings.show_cell } } } else w
    let w := if fr.MenuItem .ShowStructureInformation w.st.structureinfo_window_h true then
        { w with st := { w.st with structureinfo_window_h := !w.st.structureinfo_window_h } }
      else w
    let w := if fr.MenuItem .Console w.st.console_window_h true then
        { w with st := { w.st with console_window_h := !w.st.console_window_h } } else w
    let w := if fr.MenuItem .CloseAllWindows false true then
        { w with st := { w.st with settings :=
          { w.st.settings with close_all_windows := true } } } else w
    w
  else w

/-- Lines 37-126: the main menu bar. -/
def mainMenuBar (sfc : Bool → Settings → Settings) (fr : Frame) (w : World) : World :=
  if fr.BeginMainMenuBar then
    viewMenu fr (calculateMenu fr (fileMenu sfc fr w))
  else w

/-- Lines 128-141: the library file dialog. -/
def libraryFileDialog (fr : Frame) (w : World) : World :=
  if w.st.getfile ≠ 0 then
    let filename := fr.chooseFileDialog w.st.firstpass
    let cancelled := fr.hasUserJustCancelledDialog w.st.firstpass
    let w := w.call (.chooseFileDialog w.st.firstpass)
    let w := { w with st := { w.st with firstpass := false } }
    let w := if cancelled && filename.length == 0 then
        { w with st := { w.st with firstpass := true, getfile := 0 } } else w
    let w := if filename.length > 0 then
        let w := w.call (.set_library_file filename w.st.getfile)
        { w with st := { w.st with firstpass := true, getfile := 0 } }
      else w
    w
  else w

/-- The state and call log when the dialog block is reached (after line 126). -/
def afterMenu (sfc : Bool → Settings → Settings) (fr : Frame) (st : State) : World :=
  mainMenuBar sfc fr { st := st, calls := [] }

/-- One call of `show_menu_bar` (lines 29-145): the resulting program
variables and the external calls made, in order. -/
def show_menu_bar (sfc : Bool → Settings → Settings) (fr : Frame) (st : State) : World :=
  libraryFileDialog fr (afterMenu sfc fr st)

/-- The state after running `show_menu_bar` once per frame of the list, in order. -/
def runFrames (sfc : Bool → Settings → Settings) (st : State) (frs : List Frame) : State :=
  frs.foldl (fun s fr => (show_menu_bar sfc fr s).st) st

/-! ## Observations on one frame

The definitions below do not add behaviour: they name what can be observed of a run
of `show_menu_bar` (which widgets were reached and reported activation, which calls a
loop pass logs), in terms of the functions above. -/

/-- The calls made by one pass of the crystal-library loop body. -/
def crystalEntryCalls (fr : Frame) (i : Nat) : List Call :=
  if fr.MenuItem (.CrystalEntry i) false true then
    [.open_structure_from_library ((i : Int) + 1) 0, .set_flags_and_cam false]
  else []

/-- The effect on the settings of one pass of the crystal-library loop body. -/
def crystalEntrySettings (sfc : Bool → Settings → Settings) (fr : Frame) (s : Settings)
    (i : Nat) : Settings :=
  if fr.MenuItem (.CrystalEntry i) false true then sfc false s else s

/-- The calls made by one pass of the molecule-library loop body. -/
def moleculeEntryCalls (fr : Frame) (i : Nat) : List Call :=
  if fr.MenuItem (.MoleculeEntry i) false true then
    [.open_structure_from_library ((i : Int) + 1) 1, .set_flags_and_cam true]
  else []

/-- The effect on the settings of one pass of the molecule-library loop body. -/
def moleculeEntrySettings (sfc : Bool → Settings → Settings) (fr : Frame) (s : Settings)
    (i : Nat) : Settings :=
  if fr.MenuItem (.MoleculeEntry i) false true then sfc true s else s

/-- The value of a flag after its menu item: negated when the item was
activated, kept otherwise. -/
def toggledIf (activated previous : Bool) : Bool :=
  if activated then !previous else previous

/-- The `File` menu is reached and open. -/
def fileMenuOpen (fr : Frame) : Bool :=
  fr.BeginMainMenuBar && fr.BeginMenu .File true

/-- The `View` menu is reached and open. -/
def viewMenuOpen (fr : Frame) : Bool :=
  fr.BeginMainMenuBar && fr.BeginMenu .View true

/-- The world when line 51 is reached inside an open `File` menu. -/
def atCrystalLibrary (fr : Frame) (st : State) : World :=
  fileOpenItems fr { st := st, calls := [] }

/-- The world when line 65 is reached inside an open `File` menu. -/
def atMoleculeLibrary (sfc : Bool → Settings → Settings) (fr : Frame) (st : State) : World :=
  crystalLibraryMenu sfc fr (atCrystalLibrary fr st)

/-- The world when line 79 is reached inside an open `File` menu. -/
def atFileCloseItems (sfc : Bool → Settings → Settings) (fr : Frame) (st : State) : World :=
  moleculeLibraryMenu sfc fr (atMoleculeLibrary sfc fr st)

/-- The `Crystal library` sub-menu is reached and open. -/
def crystalLibraryOpen (fr : Frame) (st : State) : Bool :=
  fileMenuOpen fr &&
    fr.BeginMenu .CrystalLibrary (!(atCrystalLibrary fr st).st.settings.preview_mode)

/-- The `Molecule library` sub-menu is reached and open. -/
def moleculeLibraryOpen (sfc : Bool → Settings → Settings) (fr : Frame) (st : State) : Bool :=
  fileMenuOpen fr &&
    fr.BeginMenu .MoleculeLibrary (!(atMoleculeLibrary sfc fr st).st.settings.preview_mode)

/-- The `Close` item is reached and reports activation. -/
def closeActivated (sfc : Bool → Settings → Settings) (fr : Frame) (st : State) : Bool :=
  fileMenuOpen fr &&
    fr.MenuItem .Close false (!(atFileCloseItems sfc fr st).st.settings.preview_mode)

/-- The `Generate Critical Points` item is reached and reports activation. -/
def generateActivated (sfc : Bool → Settings → Settings) (fr : Frame) (st : State) : Bool :=
  fr.BeginMainMenuBar && fr.BeginMenu .Calculate true &&
    fr.MenuItem .GenerateCriticalPoints false
      (!(fileMenu sfc fr { st := st, calls := [] }).st.settings.preview_mode)

/-- Recognises a logged call of `c2::set_library_file`. -/
def Call.isSetLibraryFile : Call → Bool
  | .set_library_file _ _ => true
  | _ => false

/-- The `Choose file` item of the `Crystal library` sub-menu is reached and
reports activation. -/
def crystalChooseFileActivated (fr : Frame) (st : State) : Bool :=
  crystalLibraryOpen fr st && fr.MenuItem .CrystalChooseFile false true

/-- The `Choose file` item of the `Molecule library` sub-menu is reached and
reports activation. -/
def moleculeChooseFileActivated (sfc : Bool → Settings → Settings) (fr : Frame) (st : State) :
    Bool :=
  moleculeLibraryOpen sfc fr st && fr.MenuItem .MoleculeChooseFile false true

/-- The two library files a `Choose file` item can ask for. -/
inductive LibraryKind where
  | crystal | molecule
  deriving DecidableEq

/-- The value `getfile` takes for a library kind: 1 for the crystal library,
2 for the molecule library. -/
def LibraryKind.mode : LibraryKind → Int
  | .crystal => 1
  | .molecule => 2

/-- The `Choose file` item activated last, in program order, during the frame, if
any: the `Molecule library` menu comes after the `Crystal library` menu. -/
def chooseFileClick (sfc : Bool → Settings → Settings) (fr : Frame) (st : State) :
    Option LibraryKind :=
  if moleculeChooseFileActivated sfc fr st then some .molecule
  else if crystalChooseFileActivated fr st then some .crystal
  else none

/-- The `Choose file` item activated most recently while the frames `frs` are run
from the state `st`, if any. -/
def lastChooseFileClick (sfc : Bool → Settings → Settings) (st : State) :
    List Frame → Option LibraryKind
  | [] => none
  | fr :: frs =>
    match lastChooseFileClick sfc (show_menu_bar sfc fr st).st frs with
    | some k => some k
    | none => chooseFileClick sfc fr st

/-- The `Choose file` item activated most recently when the dialog block of the
frame `fr` is reached, the frames `frs` having been run before from `st`. -/
def lastChooseFileClickAt (sfc : Bool → Settings → Settings) (st : State) (frs : List Frame)
    (fr : Frame) : Option LibraryKind :=
  match chooseFileClick sfc fr (runFrames sfc st frs) with
  | some k => some k
  | none => lastChooseFileClick sfc st frs

/-- The calls made by the dialog block when it is entered with world `w`. -/
def dialogCalls (fr : Frame) (w : World) : List Call :=
  if w.st.getfile ≠ 0 then
    [.chooseFileDialog w.st.firstpass] ++
      if 0 < (fr.chooseFileDialog w.st.firstpass).length then
        [.set_library_file (fr.chooseFileDialog w.st.firstpass) w.st.getfile]
      else []
  else []

/-- The invariant of the two dialog statics at the end of a frame. -/
def DialogInv (s : State) : Prop :=
  (s.getfile = 0 ∨ s.getfile = 1 ∨ s.getfile = 2) ∧ (s.firstpass = true ↔ s.getfile = 0)

/-- Entry `i` of the `Crystal library` sub-menu is reached and reports
activation. -/
def crystalEntryActivated (fr : Frame) (st : State) (i : Nat) : Bool :=
  crystalLibraryOpen fr st && decide ((i : Int) < fr.nlib_crys) &&
    fr.MenuItem (.CrystalEntry i) false true

/-- Entry `i` of the `Molecule library` sub-menu is reached and reports
activation. -/
def moleculeEntryActivated (sfc : Bool → Settings → Settings) (fr : Frame) (st : State)
    (i : Nat) : Bool :=
  moleculeLibraryOpen sfc fr st && decide ((i : Int) < fr.nlib_mol) &&
    fr.MenuItem (.MoleculeEntry i) false true

/-- Some library entry is activated in the frame, that is,
`settings.set_flags_and_cam` is called. -/
def libraryEntryActivated (sfc : Bool → Settings → Settings) (fr : Frame) (st : State) : Bool :=
  (List.range fr.nlib_crys.toNat).any (crystalEntryActivated fr st) ||
    (List.range fr.nlib_mol.toNat).any (moleculeEntryActivated sfc fr st)

/-- The `Quit` item is reached and reports activation. -/
def quitActivated (fr : Frame) : Bool :=
  fileMenuOpen fr && fr.MenuItem .Quit false true

/-- The `Close all windows` item is reached and reports activation. -/
def closeAllWindowsActivated (fr : Frame) : Bool :=
  viewMenuOpen fr && fr.MenuItem .CloseAllWindows false true

/-- Each of the six `View` flags is, after the frame, the negation of its value
before the frame when its own item was activated in the frame, and its value
before the frame otherwise.  The activation of an item is read off the frame with
the value of the flag before the frame as the `selected` argument; this is the
argument the code passes unless `set_flags_and_cam` has changed the flag earlier
in the frame. -/
def ViewFlagsReflectLastToggle (sfc : Bool → Settings → Settings) (fr : Frame) (st : State) :
    Prop :=
  (show_menu_bar sfc fr st).st.settings.show_bonds =
    toggledIf (viewMenuOpen fr && fr.MenuItem .ToggleBonds st.settings.show_bonds true)
      st.settings.show_bonds ∧
  (show_menu_bar sfc fr st).st.settings.show_cps =
    toggledIf (viewMenuOpen fr && fr.MenuItem .ToggleCriticalPoints st.settings.show_cps true)
      st.settings.show_cps ∧
  (show_menu_bar sfc fr st).st.settings.show_atoms =
    toggledIf (viewMenuOpen fr && fr.MenuItem .ToggleAtoms st.settings.show_atoms true)
      st.settings.show_atoms ∧
  (show_menu_bar sfc fr st).st.settings.show_cell =
    toggledIf (viewMenuOpen fr && fr.MenuItem .ToggleCell st.settings.show_cell true)
      st.settings.show_cell ∧
  (show_menu_bar sfc fr st).st.structureinfo_window_h =
    toggledIf (viewMenuOpen fr &&
        fr.MenuItem .ShowStructureInformation st.structureinfo_window_h true)
      st.structureinfo_window_h ∧
  (show_menu_bar sfc fr st).st.console_window_h =
    toggledIf (viewMenuOpen fr && fr.MenuItem .Console st.console_window_h true)
      st.console_window_h

/-! ## Concrete states and frames -/

/-- A sample value for the parameter `sfc`, used to evaluate the definitions on
concrete frames: it shows the unit cell for a crystal and hides it for a
molecule, leaving every other modelled field alone.  It is not taken from the
sources. -/
def sfcShowCell (ismolecule : Bool) (s : Settings) : Settings :=
  { s with show_cell := !ismolecule }

/-- A state right after start-up: no request pending, the unit cell hidden. -/
def sampleState : State :=
  { settings :=
      { preview_mode := false, want_quit := false, close_all_windows := false,
        show_bonds := true, show_cps := true, show_atoms := true, show_cell := false },
    structurenew_window_h := false, structureopen_window_h := 0,
    structureinfo_window_h := false, console_window_h := false,
    firstpass := true, getfile := 0 }

/-- The state `sampleState` in preview mode. -/
def samplePreviewState : State :=
  { sampleState with settings := { sampleState.settings with preview_mode := true } }

/-- A frame in which nothing is clicked and no menu is open. -/
def frameIdle : Frame :=
  { BeginMainMenuBar := true
    BeginMenu := fun _ _ => false
    MenuItem := fun _ _ _ => false
    nlib_crys := 2
    nlib_mol := 1
    chooseFileDialog := fun _ => ""
    hasUserJustCancelledDialog := fun _ => false }

/-- A frame in which the first entry of the `Crystal library` sub-menu is
clicked; the `View` menu is closed. -/
def frameCrystalEntry : Frame :=
  { frameIdle with
    BeginMenu := fun m enabled =>
      match m with
      | .File | .CrystalLibrary => enabled
      | _ => false
    MenuItem := fun it _ enabled =>
      match it with
      | .CrystalEntry 0 => enabled
      | _ => false }

/-- A frame in which `Choose file` of the `Crystal library` sub-menu is clicked
and the dialog is cancelled at once with no file chosen. -/
def frameChooseThenCancel : Frame :=
  { frameIdle with
    BeginMenu := fun m enabled =>
      match m with
      | .File | .CrystalLibrary => enabled
      | _ => false
    MenuItem := fun it _ enabled =>
      match it with
      | .CrystalChooseFile => enabled
      | _ => false
    hasUserJustCancelledDialog := fun _ => true }

/-- A frame in which `Choose file` of the `Molecule library` sub-menu is clicked
and the dialog returns a file name. -/
def frameChooseThenPick : Frame :=
  { frameIdle with
    BeginMenu := fun m enabled =>
      match m with
      | .File | .MoleculeLibrary => enabled
      | _ => false
    MenuItem := fun it _ enabled =>
      match it with
      | .MoleculeChooseFile => enabled
      | _ => false
    chooseFileDialog := fun _ => "mol.dat" }

/-- A frame in which `Choose file` of the `Crystal library` sub-menu is clicked
and the dialog stays open. -/
def frameChooseThenWait : Frame :=
  { frameIdle with
    BeginMenu := fun m enabled =>
      match m with
      | .File | .CrystalLibrary => enabled
      | _ => false
    MenuItem := fun it _ enabled =>
      match it with
      | .CrystalChooseFile => enabled
      | _ => false }

/-- A frame in which every menu that is enabled opens and every item that is
enabled is clicked; disabled widgets do not respond. -/
def frameClickEverything : Frame :=
  { frameIdle with
    BeginMenu := fun _ enabled => enabled
    MenuItem := fun _ _ enabled => enabled }

/-! ## Key-binding dispatch

`keybinding.h` only declares `RegisterCallback`, `ProcessCallbacks` and
`IsBindEvent`; their bodies are in a file that is not among the sources. -/

/-- Modelled from the spec: the state of the key-binding module, whose
implementation file is missing.  `keymap` is the static table mapping
(key, modifier, context-group) triples to bind actions (declared in
`keybinding.h` as a map from triples to `int`); `callbacks` holds the registered
callbacks as (bind event, callback, data) triples, callback and data being
addresses. -/
structure KeyBindings where
  keymap : List ((Int × Int × Int) × Nat)
  callbacks : List (Nat × Nat × Nat)

/-- Modelled from the spec: `RegisterCallback(event, callback, data)`, whose body
is missing, registers the callback and its data for the bind event. -/
def RegisterCallback (kb : KeyBindings) (event callback data : Nat) : KeyBindings :=
  { kb with callbacks := kb.callbacks ++ [(event, callback, data)] }

/-- Modelled from the spec: `IsBindEvent(bind, held)`, whose body is missing.
The bind event fires when a triple that `keymap` currently maps to it is
triggered; `triggered` is the input state of the frame (which triples are
pressed, respectively held). -/
def IsBindEvent (kb : KeyBindings) (triggered : Int × Int × Int → Bool → Bool) (bind : Nat)
    (held : Bool) : Bool :=
  kb.keymap.any (fun entry => entry.2 == bind && triggered entry.1 held)

/-- Modelled from the spec: `ProcessCallbacks()`, whose body is missing, is a
linear dispatch over the registered callbacks: it invokes, in registration
order, each callback whose bind event fires, asking `IsBindEvent` for the event
itself (`held` false).  The result lists the invocations as (callback, data)
pairs. -/
def ProcessCallbacks (kb : KeyBindings) (triggered : Int × Int × Int → Bool → Bool) :
    List (Nat × Nat) :=
  (kb.callbacks.filter (fun c => IsBindEvent kb triggered c.1 false)).map
    (fun c => (c.2.1, c.2.2))

/-- Register a list of (bind event, callback, data) triples, in order. -/
def registerAll (kb : KeyBindings) (regs : List (Nat × Nat × Nat)) : KeyBindings :=
  regs.foldl (fun k r => RegisterCallback k r.1 r.2.1 r.2.2) kb

/-- A key-binding state with two bound actions and no callback. -/
def sampleKeyBindings : KeyBindings :=
  { keymap := [((81, 2, 0), BIND_QUIT), ((256, 0, 0), BIND_CLOSE_LAST_DIALOG)]
    callbacks := [] }

/-- An input state in which only the triple (81, 2, 0) is pressed. -/
def sampleTriggered : Int × Int × Int → Bool → Bool :=
  fun t held => !held && decide (t = (81, 2, 0))

/-! ## Lemmas on the blocks of `show_menu_bar` -/

theorem foldl_crystalEntry (sfc : Bool → Settings → Settings) (fr : Frame) (l : List Nat)
    (w : World) :
    l.foldl (crystalEntry sfc fr) w =
      { st := { w.st with settings := l.foldl (crystalEntrySettings sfc fr) w.st.settings },
        calls := w.calls ++ l.flatMap (crystalEntryCalls fr) } := by
  induction l generalizing w with
  | nil => simp
  | cons i l ih =>
    rw [List.foldl_cons, ih]
    by_cases h : fr.MenuItem (.CrystalEntry i) false true = true
      <;> simp [crystalEntry, crystalEntrySettings, crystalEntryCalls, World.call, h]

theorem fileOpenItems_eq (fr : Frame) (w : World) :
    fileOpenItems fr w =
      { st := { w.st with
          structurenew_window_h :=
            w.st.structurenew_window_h || fr.MenuItem .New false (!w.st.settings.preview_mode),
          structureopen_window_h :=
            if fr.MenuItem .OpenMolecule false (!w.st.settings.preview_mode) then 1
            else if fr.MenuItem .OpenCrystal false (!w.st.settings.preview_mode) then 2
            else w.st.structureopen_window_h },
        calls := w.calls } := by
  unfold fileOpenItems
  by_cases h1 : fr.MenuItem .New false (!w.st.settings.preview_mode) = true
    <;> by_cases h2 : fr.MenuItem .OpenCrystal false (!w.st.settings.preview_mode) = true
    <;> by_cases h3 : fr.MenuItem .OpenMolecule false (!w.st.settings.preview_mode) = true
    <;> simp [h1, h2, h3]

theorem foldl_moleculeEntry (sfc : Bool → Settings → Settings) (fr : Frame) (l : List Nat)
    (w : World) :
    l.foldl (moleculeEntry sfc fr) w =
      { st := { w.st with settings := l.foldl (moleculeEntrySettings sfc fr) w.st.settings },
        calls := w.calls ++ l.flatMap (moleculeEntryCalls fr) } := by
  induction l generalizing w with
  | nil => simp
  | cons i l ih =>
    rw [List.foldl_cons, ih]
    by_cases h : fr.MenuItem (.MoleculeEntry i) false true = true
      <;> simp [moleculeEntry, moleculeEntrySettings, moleculeEntryCalls, World.call, h]

theorem crystalLibraryMenu_eq (sfc : Bool → Settings → Settings) (fr : Frame) (w : World) :
    crystalLibraryMenu sfc fr w =
      if fr.BeginMenu .CrystalLibrary (!w.st.settings.preview_mode) then
        { st := { w.st with
            settings := (List.range fr.nlib_crys.toNat).foldl (crystalEntrySettings sfc fr)
              w.st.settings,
            getfile := if fr.MenuItem .CrystalChooseFile false true then 1 else w.st.getfile },
          calls := w.calls ++ (List.range fr.nlib_crys.toNat).flatMap (crystalEntryCalls fr) }
      else w := by
  unfold crystalLibraryMenu
  by_cases h1 : fr.BeginMenu .CrystalLibrary (!w.st.settings.preview_mode) = true
    <;> by_cases h2 : fr.MenuItem .CrystalChooseFile false true = true
    <;> simp [h1, h2, foldl_crystalEntry]

theorem moleculeLibraryMenu_eq (sfc : Bool → Settings → Settings) (fr : Frame) (w : World) :
    moleculeLibraryMenu sfc fr w =
      if fr.BeginMenu .MoleculeLibrary (!w.st.settings.preview_mode) then
        { st := { w.st with
            settings := (List.range fr.nlib_mol.toNat).foldl (moleculeEntrySettings sfc fr)
              w.st.settings,
            getfile := if fr.MenuItem .MoleculeChooseFile false true then 2 else w.st.getfile },
          calls := w.calls ++ (List.range fr.nlib_mol.toNat).flatMap (moleculeEntryCalls fr) }
      else w := by
  unfold moleculeLibraryMenu
  by_cases h1 : fr.BeginMenu .MoleculeLibrary (!w.st.settings.preview_mode) = true
    <;> by_cases h2 : fr.MenuItem .MoleculeChooseFile false true = true
    <;> simp [h1, h2, foldl_moleculeEntry]

theorem fileCloseItems_eq (fr : Frame) (w : World) :
    fileCloseItems fr w =
      { st := { w.st with settings := { w.st.settings with
          want_quit := w.st.settings.want_quit || fr.MenuItem .Quit false true } },
        calls := w.calls ++
          if fr.MenuItem .Close false (!w.st.settings.preview_mode) then [.clear_scene true]
          else [] } := by
  unfold fileCloseItems
  by_cases h1 : fr.MenuItem .Close false (!w.st.settings.preview_mode) = true
    <;> by_cases h2 : fr.MenuItem .Quit false true = true
    <;> simp [h1, h2, World.call]

theorem calculateMenu_eq (fr : Frame) (w : World) :
    calculateMenu fr w =
      { st := w.st,
        calls := w.calls ++
          if fr.BeginMenu .Calculate true &&
              fr.MenuItem .GenerateCriticalPoints false (!w.st.settings.preview_mode)
          then [.call_auto] else [] } := by
  unfold calculateMenu
  by_cases h1 : fr.BeginMenu .Calculate true = true
    <;> by_cases h2 :
      fr.MenuItem .GenerateCriticalPoints false (!w.st.settings.preview_mode) = true
    <;> simp [h1, h2, World.call]

theorem viewMenu_eq (fr : Frame) (w : World) :
    viewMenu fr w =
      if fr.BeginMenu .View true then
        { st := { w.st with
            settings := { w.st.settings with
              show_bonds := toggledIf (fr.MenuItem .ToggleBonds w.st.settings.show_bonds true)
                w.st.settings.show_bonds,
              show_cps := toggledIf (fr.MenuItem .ToggleCriticalPoints w.st.settings.show_cps true)
                w.st.settings.show_cps,
              show_atoms := toggledIf (fr.MenuItem .ToggleAtoms w.st.settings.show_atoms true)
                w.st.settings.show_atoms,
              show_cell := toggledIf (fr.MenuItem .ToggleCell w.st.settings.show_cell true)
                w.st.settings.show_cell,
              close_all_windows :=
                w.st.settings.close_all_windows || fr.MenuItem .CloseAllWindows false true },
            structureinfo_window_h :=
              toggledIf (fr.MenuItem .ShowStructureInformation w.st.structureinfo_window_h true)
                w.st.structureinfo_window_h,
            console_window_h :=
              toggledIf (fr.MenuItem .Console w.st.console_window_h true)
                w.st.console_window_h },
          calls := w.calls }
      else w := by
  unfold viewMenu toggledIf
  by_cases h0 : fr.BeginMenu .View true = true
  · simp only [h0, if_true]
    by_cases h1 : fr.MenuItem .ToggleBonds w.st.settings.show_bonds true = true
      <;> by_cases h2 : fr.MenuItem .ToggleCriticalPoints w.st.settings.show_cps true = true
      <;> by_cases h3 : fr.MenuItem .ToggleAtoms w.st.settings.show_atoms true = true
      <;> by_cases h4 : fr.MenuItem .ToggleCell w.st.settings.show_cell true = true
      <;> by_cases h5 :
        fr.MenuItem .ShowStructureInformation w.st.structureinfo_window_h true = true
      <;> by_cases h6 : fr.MenuItem .Console w.st.console_window_h true = true
      <;> by_cases h7 : fr.MenuItem .CloseAllWindows false true = true
      <;> simp [h1, h2, h3, h4, h5, h6, h7]
  · simp [h0]

theorem fileOpenItems_proj (fr : Frame) (w : World) :
    (fileOpenItems fr w).calls = w.calls ∧
    (fileOpenItems fr w).st.settings = w.st.settings ∧
    (fileOpenItems fr w).st.getfile = w.st.getfile ∧
    (fileOpenItems fr w).st.firstpass = w.st.firstpass ∧
    (fileOpenItems fr w).st.structureinfo_window_h = w.st.structureinfo_window_h ∧
    (fileOpenItems fr w).st.console_window_h = w.st.console_window_h := by
  rw [fileOpenItems_eq]; simp

theorem crystalLibraryMenu_proj (sfc : Bool → Settings → Settings) (fr : Frame) (w : World) :
    (crystalLibraryMenu sfc fr w).calls = w.calls ++
      (if fr.BeginMenu .CrystalLibrary (!w.st.settings.preview_mode) then
        (List.range fr.nlib_crys.toNat).flatMap (crystalEntryCalls fr) else []) ∧
    (crystalLibraryMenu sfc fr w).st.settings =
      (if fr.BeginMenu .CrystalLibrary (!w.st.settings.preview_mode) then
        (List.range fr.nlib_crys.toNat).foldl (crystalEntrySettings sfc fr) w.st.settings
       else w.st.settings) ∧
    (crystalLibraryMenu sfc fr w).st.getfile =
      (if fr.BeginMenu .CrystalLibrary (!w.st.settings.preview_mode) &&
          fr.MenuItem .CrystalChooseFile false true then 1 else w.st.getfile) ∧
    (crystalLibraryMenu sfc fr w).st.firstpass = w.st.firstpass ∧
    (crystalLibraryMenu sfc fr w).st.structurenew_window_h = w.st.structurenew_window_h ∧
    (crystalLibraryMenu sfc fr w).st.structureopen_window_h = w.st.structureopen_window_h ∧
    (crystalLibraryMenu sfc fr w).st.structureinfo_window_h = w.st.structureinfo_window_h ∧
    (crystalLibraryMenu sfc fr w).st.console_window_h = w.st.console_window_h := by
  rw [crystalLibraryMenu_eq]
  by_cases h1 : fr.BeginMenu .CrystalLibrary (!w.st.settings.preview_mode) = true
    <;> simp [h1]

theorem moleculeLibraryMenu_proj (sfc : Bool → Settings → Settings) (fr : Frame) (w : World) :
    (moleculeLibraryMenu sfc fr w).calls = w.calls ++
      (if fr.BeginMenu .MoleculeLibrary (!w.st.settings.preview_mode) then
        (List.range fr.nlib_mol.toNat).flatMap (moleculeEntryCalls fr) else []) ∧
    (moleculeLibraryMenu sfc fr w).st.settings =
      (if fr.BeginMenu .MoleculeLibrary (!w.st.settings.preview_mode) then
        (List.range fr.nlib_mol.toNat).foldl (moleculeEntrySettings sfc fr) w.st.settings
       else w.st.settings) ∧
    (moleculeLibraryMenu sfc fr w).st.getfile =
      (if fr.BeginMenu .MoleculeLibrary (!w.st.settings.preview_mode) &&
          fr.MenuItem .MoleculeChooseFile false true then 2 else w.st.getfile) ∧
    (moleculeLibraryMenu sfc fr w).st.firstpass = w.st.firstpass ∧
    (moleculeLibraryMenu sfc fr w).st.structurenew_window_h = w.st.structurenew_window_h ∧
    (moleculeLibraryMenu sfc fr w).st.structureopen_window_h = w.st.structureopen_window_h ∧
    (moleculeLibraryMenu sfc fr w).st.structureinfo_window_h = w.st.structureinfo_window_h ∧
    (moleculeLibraryMenu sfc fr w).st.console_window_h = w.st.console_window_h := by
  rw [moleculeLibraryMenu_eq]
  by_cases h1 : fr.BeginMenu .MoleculeLibrary (!w.st.settings.preview_mode) = true
    <;> simp [h1]

theorem fileCloseItems_proj (fr : Frame) (w : World) :
    (fileCloseItems fr w).calls = w.calls ++
      (if fr.MenuItem .Close false (!w.st.settings.preview_mode) then [.clear_scene true]
       else []) ∧
    (fileCloseItems fr w).st.settings = { w.st.settings with
      want_quit := w.st.settings.want_quit || fr.MenuItem .Quit false true } ∧
    (fileCloseItems fr w).st.getfile = w.st.getfile ∧
    (fileCloseItems fr w).st.firstpass = w.st.firstpass ∧
    (fileCloseItems fr w).st.structurenew_window_h = w.st.structurenew_window_h ∧
    (fileCloseItems fr w).st.structureopen_window_h = w.st.structureopen_window_h ∧
    (fileCloseItems fr w).st.structureinfo_window_h = w.st.structureinfo_window_h ∧
    (fileCloseItems fr w).st.console_window_h = w.st.console_window_h := by
  rw [fileCloseItems_eq]; simp

theorem viewMenu_proj (fr : Frame) (w : World) :
    (viewMenu fr w).calls = w.calls ∧
    (viewMenu fr w).st.getfile = w.st.getfile ∧
    (viewMenu fr w).st.firstpass = w.st.firstpass ∧
    (viewMenu fr w).st.structurenew_window_h = w.st.structurenew_window_h ∧
    (viewMenu fr w).st.structureopen_window_h = w.st.structureopen_window_h ∧
    (viewMenu fr w).st.settings.preview_mode = w.st.settings.preview_mode ∧
    (viewMenu fr w).st.settings.want_quit = w.st.settings.want_quit ∧
    (viewMenu fr w).st.settings.close_all_windows =
      (w.st.settings.close_all_windows ||
        (fr.BeginMenu .View true && fr.MenuItem .CloseAllWindows false true)) := by
  rw [viewMenu_eq]
  by_cases h0 : fr.BeginMenu .View true = true <;> simp [h0]

theorem viewMenu_flags (fr : Frame) (w : World) :
    (viewMenu fr w).st.settings.show_bonds =
      toggledIf (fr.BeginMenu .View true && fr.MenuItem .ToggleBonds w.st.settings.show_bonds true)
        w.st.settings.show_bonds ∧
    (viewMenu fr w).st.settings.show_cps =
      toggledIf (fr.BeginMenu .View true &&
          fr.MenuItem .ToggleCriticalPoints w.st.settings.show_cps true)
        w.st.settings.show_cps ∧
    (viewMenu fr w).st.settings.show_atoms =
      toggledIf (fr.BeginMenu .View true && fr.MenuItem .ToggleAtoms w.st.settings.show_atoms true)
        w.st.settings.show_atoms ∧
    (viewMenu fr w).st.settings.show_cell =
      toggledIf (fr.BeginMenu .View true && fr.MenuItem .ToggleCell w.st.settings.show_cell true)
        w.st.settings.show_cell ∧
    (viewMenu fr w).st.structureinfo_window_h =
      toggledIf (fr.BeginMenu .View true &&
          fr.MenuItem .ShowStructureInformation w.st.structureinfo_window_h true)
        w.st.structureinfo_window_h ∧
    (viewMenu fr w).st.console_window_h =
      toggledIf (fr.BeginMenu .View true && fr.MenuItem .Console w.st.console_window_h true)
        w.st.console_window_h := by
  rw [viewMenu_eq]
  by_cases h0 : fr.BeginMenu .View true = true <;> simp [h0, toggledIf]

theorem afterMenu_calls (sfc : Bool → Settings → Settings) (fr : Frame) (st : State) :
    (afterMenu sfc fr st).calls =
      (if crystalLibraryOpen fr st then
        (List.range fr.nlib_crys.toNat).flatMap (crystalEntryCalls fr) else []) ++
      (if moleculeLibraryOpen sfc fr st then
        (List.range fr.nlib_mol.toNat).flatMap (moleculeEntryCalls fr) else []) ++
      (if closeActivated sfc fr st then [.clear_scene true] else []) ++
      (if generateActivated sfc fr st then [.call_auto] else []) := by
  unfold afterMenu mainMenuBar crystalLibraryOpen moleculeLibraryOpen closeActivated
    generateActivated fileMenuOpen atFileCloseItems atMoleculeLibrary atCrystalLibrary
  by_cases hb : fr.BeginMainMenuBar = true
  · by_cases hf : fr.BeginMenu .File true = true
    · simp [hb, hf, fileMenu, viewMenu_proj, calculateMenu_eq, fileCloseItems_proj,
        moleculeLibraryMenu_proj, crystalLibraryMenu_proj, fileOpenItems_proj]
    · simp [hb, hf, fileMenu, viewMenu_proj, calculateMenu_eq]
  · simp [hb]

theorem libraryFileDialog_eq (fr : Frame) (w : World) :
    libraryFileDialog fr w =
      if w.st.getfile ≠ 0 then
        { st := { w.st with
            firstpass := fr.hasUserJustCancelledDialog w.st.firstpass ||
              decide (0 < (fr.chooseFileDialog w.st.firstpass).length),
            getfile :=
              if fr.hasUserJustCancelledDialog w.st.firstpass = true ∨
                  0 < (fr.chooseFileDialog w.st.firstpass).length then 0
              else w.st.getfile },
          calls := w.calls ++ [.chooseFileDialog w.st.firstpass] ++
            if 0 < (fr.chooseFileDialog w.st.firstpass).length then
              [.set_library_file (fr.chooseFileDialog w.st.firstpass) w.st.getfile]
            else [] }
      else w := by
  unfold libraryFileDialog
  by_cases hg : w.st.getfile = 0
  · simp [hg]
  · by_cases hc : fr.hasUserJustCancelledDialog w.st.firstpass = true
      <;> by_cases hl : (fr.chooseFileDialog w.st.firstpass).length = 0
      <;> simp [hg, hc, hl, World.call, Nat.pos_iff_ne_zero]

theorem afterMenu_firstpass (sfc : Bool → Settings → Settings) (fr : Frame) (st : State) :
    (afterMenu sfc fr st).st.firstpass = st.firstpass := by
  unfold afterMenu mainMenuBar fileMenu
  by_cases hb : fr.BeginMainMenuBar = true
  · by_cases hf : fr.BeginMenu .File true = true
    · simp [hb, hf, viewMenu_proj, calculateMenu_eq, fileCloseItems_proj,
        moleculeLibraryMenu_proj, crystalLibraryMenu_proj, fileOpenItems_proj]
    · simp [hb, hf, viewMenu_proj, calculateMenu_eq]
  · simp [hb]

theorem afterMenu_getfile (sfc : Bool → Settings → Settings) (fr : Frame) (st : State) :
    (afterMenu sfc fr st).st.getfile =
      if moleculeChooseFileActivated sfc fr st then 2
      else if crystalChooseFileActivated fr st then 1
      else st.getfile := by
  unfold afterMenu mainMenuBar fileMenu moleculeChooseFileActivated crystalChooseFileActivated
    crystalLibraryOpen moleculeLibraryOpen fileMenuOpen atMoleculeLibrary atCrystalLibrary
  by_cases hb : fr.BeginMainMenuBar = true
  · by_cases hf : fr.BeginMenu .File true = true
    · simp [hb, hf, viewMenu_proj, calculateMenu_eq, fileCloseItems_proj,
        moleculeLibraryMenu_proj, crystalLibraryMenu_proj, fileOpenItems_proj]
    · simp [hb, hf, viewMenu_proj, calculateMenu_eq]
  · simp [hb]

theorem afterMenu_calls_not_dialog (sfc : Bool → Settings → Settings) (fr : Frame) (st : State)
    (c : Call) (hc : c ∈ (afterMenu sfc fr st).calls) :
    c.isSetLibraryFile = false ∧ ∀ b, c ≠ .chooseFileDialog b := by
  rw [afterMenu_calls] at hc
  simp only [List.mem_append] at hc
  rcases hc with ((h | h) | h) | h
  · split_ifs at h
    · obtain ⟨i, _, hi⟩ := List.mem_flatMap.mp h
      unfold crystalEntryCalls at hi
      split_ifs at hi <;> simp at hi
      rcases hi with rfl | rfl <;> simp [Call.isSetLibraryFile]
    · simp at h
  · split_ifs at h
    · obtain ⟨i, _, hi⟩ := List.mem_flatMap.mp h
      unfold moleculeEntryCalls at hi
      split_ifs at hi <;> simp at hi
      rcases hi with rfl | rfl <;> simp [Call.isSetLibraryFile]
    · simp at h
  · split_ifs at h <;> simp at h
    subst h; simp [Call.isSetLibraryFile]
  · split_ifs at h <;> simp at h
    subst h; simp [Call.isSetLibraryFile]

theorem libraryFileDialog_calls (fr : Frame) (w : World) :
    (libraryFileDialog fr w).calls = w.calls ++ dialogCalls fr w := by
  rw [libraryFileDialog_eq]; unfold dialogCalls
  by_cases hg : w.st.getfile = 0 <;> simp [hg]

theorem libraryFileDialog_getfile (fr : Frame) (w : World) :
    (libraryFileDialog fr w).st.getfile =
      if fr.hasUserJustCancelledDialog w.st.firstpass = true ∨
          0 < (fr.chooseFileDialog w.st.firstpass).length then 0
      else w.st.getfile := by
  rw [libraryFileDialog_eq]
  by_cases hg : w.st.getfile = 0 <;> simp [hg]

theorem libraryFileDialog_firstpass (fr : Frame) (w : World) :
    (libraryFileDialog fr w).st.firstpass =
      if w.st.getfile ≠ 0 then
        (fr.hasUserJustCancelledDialog w.st.firstpass ||
          decide (0 < (fr.chooseFileDialog w.st.firstpass).length))
      else w.st.firstpass := by
  rw [libraryFileDialog_eq]
  by_cases hg : w.st.getfile = 0 <;> simp [hg]

theorem libraryFileDialog_rest (fr : Frame) (w : World) :
    (libraryFileDialog fr w).st.settings = w.st.settings ∧
    (libraryFileDialog fr w).st.structurenew_window_h = w.st.structurenew_window_h ∧
    (libraryFileDialog fr w).st.structureopen_window_h = w.st.structureopen_window_h ∧
    (libraryFileDialog fr w).st.structureinfo_window_h = w.st.structureinfo_window_h ∧
    (libraryFileDialog fr w).st.console_window_h = w.st.console_window_h := by
  rw [libraryFileDialog_eq]
  by_cases hg : w.st.getfile = 0 <;> simp [hg]

theorem mem_dialogCalls_chooseFileDialog (fr : Frame) (w : World) (b : Bool) :
    Call.chooseFileDialog b ∈ dialogCalls fr w ↔ w.st.getfile ≠ 0 ∧ b = w.st.firstpass := by
  unfold dialogCalls
  by_cases hg : w.st.getfile = 0
  · simp [hg]
  · by_cases hl : 0 < (fr.chooseFileDialog w.st.firstpass).length <;> simp [hg, hl]

theorem filter_afterMenu_calls (sfc : Bool → Settings → Settings) (fr : Frame) (st : State) :
    (afterMenu sfc fr st).calls.filter Call.isSetLibraryFile = [] := by
  rw [List.filter_eq_nil_iff]
  intro c hc
  simp [(afterMenu_calls_not_dialog sfc fr st c hc).1]

theorem dialogInv_step (sfc : Bool → Settings → Settings) (fr : Frame) (s : State)
    (h : DialogInv s) : DialogInv (show_menu_bar sfc fr s).st := by
  obtain ⟨h1, h2⟩ := h
  unfold DialogInv show_menu_bar
  rw [libraryFileDialog_getfile, libraryFileDialog_firstpass, afterMenu_firstpass,
    afterMenu_getfile]
  by_cases hm : moleculeChooseFileActivated sfc fr s = true
  · by_cases hc : fr.hasUserJustCancelledDialog s.firstpass = true
      <;> by_cases hl : 0 < (fr.chooseFileDialog s.firstpass).length
      <;> simp [hm, hc, hl]
  · by_cases hk : crystalChooseFileActivated fr s = true
    · by_cases hc : fr.hasUserJustCancelledDialog s.firstpass = true
        <;> by_cases hl : 0 < (fr.chooseFileDialog s.firstpass).length
        <;> simp [hm, hk, hc, hl]
    · by_cases hc : fr.hasUserJustCancelledDialog s.firstpass = true
        <;> by_cases hl : 0 < (fr.chooseFileDialog s.firstpass).length
        <;> by_cases hg : s.getfile = 0
        <;> simp [hm, hk, hc, hl, hg] <;> simp_all

theorem dialogInv_runFrames (sfc : Bool → Settings → Settings) (frs : List Frame) (s : State)
    (h : DialogInv s) : DialogInv (runFrames sfc s frs) := by
  induction frs generalizing s with
  | nil => exact h
  | cons fr frs ih => exact ih _ (dialogInv_step sfc fr s h)

theorem foldl_crystalEntrySettings_of_none (sfc : Bool → Settings → Settings) (fr : Frame)
    (l : List Nat) (s : Settings)
    (h : ∀ i ∈ l, fr.MenuItem (.CrystalEntry i) false true = false) :
    l.foldl (crystalEntrySettings sfc fr) s = s := by
  induction l generalizing s with
  | nil => rfl
  | cons i l ih =>
    rw [List.foldl_cons]
    have hi : crystalEntrySettings sfc fr s i = s := by
      simp [crystalEntrySettings, h i (List.mem_cons_self _ _)]
    rw [hi]
    exact ih s (fun j hj => h j (List.mem_cons_of_mem _ hj))

theorem foldl_moleculeEntrySettings_of_none (sfc : Bool → Settings → Settings) (fr : Frame)
    (l : List Nat) (s : Settings)
    (h : ∀ i ∈ l, fr.MenuItem (.MoleculeEntry i) false true = false) :
    l.foldl (moleculeEntrySettings sfc fr) s = s := by
  induction l generalizing s with
  | nil => rfl
  | cons i l ih =>
    rw [List.foldl_cons]
    have hi : moleculeEntrySettings sfc fr s i = s := by
      simp [moleculeEntrySettings, h i (List.mem_cons_self _ _)]
    rw [hi]
    exact ih s (fun j hj => h j (List.mem_cons_of_mem _ hj))

theorem crystal_none_of_not_activated (sfc : Bool → Settings → Settings) (fr : Frame)
    (st : State) (h : libraryEntryActivated sfc fr st = false)
    (ho : crystalLibraryOpen fr st = true) :
    ∀ i ∈ List.range fr.nlib_crys.toNat, fr.MenuItem (.CrystalEntry i) false true = false := by
  intro i hi
  unfold libraryEntryActivated at h
  rw [Bool.or_eq_false_iff, List.any_eq_false, List.any_eq_false] at h
  have h1 := h.1 i hi
  have hlt : (i : Int) < fr.nlib_crys := by
    have := List.mem_range.mp hi
    omega
  simpa [crystalEntryActivated, ho, hlt] using h1

theorem molecule_none_of_not_activated (sfc : Bool → Settings → Settings) (fr : Frame)
    (st : State) (h : libraryEntryActivated sfc fr st = false)
    (ho : moleculeLibraryOpen sfc fr st = true) :
    ∀ i ∈ List.range fr.nlib_mol.toNat, fr.MenuItem (.MoleculeEntry i) false true = false := by
  intro i hi
  unfold libraryEntryActivated at h
  rw [Bool.or_eq_false_iff, List.any_eq_false, List.any_eq_false] at h
  have h1 := h.2 i hi
  have hlt : (i : Int) < fr.nlib_mol := by
    have := List.mem_range.mp hi
    omega
  simpa [moleculeEntryActivated, ho, hlt] using h1

theorem atMoleculeLibrary_settings (sfc : Bool → Settings → Settings) (fr : Frame)
    (st : State) (hb : fileMenuOpen fr = true) (h : libraryEntryActivated sfc fr st = false) :
    (atMoleculeLibrary sfc fr st).st.settings = st.settings := by
  have key := crystal_none_of_not_activated sfc fr st h
  unfold crystalLibraryOpen at key
  rw [hb, Bool.true_and] at key
  unfold atMoleculeLibrary
  rw [(crystalLibraryMenu_proj sfc fr _).2.1]
  split_ifs with ho
  · rw [foldl_crystalEntrySettings_of_none sfc fr _ _ (key ho)]
    simp [atCrystalLibrary, fileOpenItems_proj]
  · simp [atCrystalLibrary, fileOpenItems_proj]

theorem atFileCloseItems_settings (sfc : Bool → Settings → Settings) (fr : Frame)
    (st : State) (hb : fileMenuOpen fr = true) (h : libraryEntryActivated sfc fr st = false) :
    (atFileCloseItems sfc fr st).st.settings = st.settings := by
  have key := molecule_none_of_not_activated sfc fr st h
  unfold moleculeLibraryOpen at key
  rw [hb, Bool.true_and] at key
  unfold atFileCloseItems
  rw [(moleculeLibraryMenu_proj sfc fr _).2.1]
  split_ifs with ho
  · rw [foldl_moleculeEntrySettings_of_none sfc fr _ _ (key ho)]
    exact atMoleculeLibrary_settings sfc fr st hb h
  · exact atMoleculeLibrary_settings sfc fr st hb h

theorem fileMenu_eq (sfc : Bool → Settings → Settings) (fr : Frame) (st : State)
    (hf : fr.BeginMenu .File true = true) :
    fileMenu sfc fr { st := st, calls := [] } = fileCloseItems fr (atFileCloseItems sfc fr st) := by
  simp [fileMenu, hf, atFileCloseItems, atMoleculeLibrary, atCrystalLibrary]

theorem fileMenu_windows (sfc : Bool → Settings → Settings) (fr : Frame) (w : World) :
    (fileMenu sfc fr w).st.structureinfo_window_h = w.st.structureinfo_window_h ∧
    (fileMenu sfc fr w).st.console_window_h = w.st.console_window_h ∧
    (fileMenu sfc fr w).st.firstpass = w.st.firstpass := by
  unfold fileMenu
  by_cases hf : fr.BeginMenu .File true = true
  · simp [hf, fileCloseItems_proj, moleculeLibraryMenu_proj, crystalLibraryMenu_proj,
      fileOpenItems_proj]
  · simp [hf]

theorem fileMenu_settings (sfc : Bool → Settings → Settings) (fr : Frame) (st : State)
    (hb : fr.BeginMainMenuBar = true) (h : libraryEntryActivated sfc fr st = false) :
    (fileMenu sfc fr { st := st, calls := [] }).st.settings =
      { st.settings with want_quit := st.settings.want_quit || quitActivated fr } := by
  by_cases hf : fr.BeginMenu .File true = true
  · have ho : fileMenuOpen fr = true := by simp [fileMenuOpen, hb, hf]
    rw [fileMenu_eq sfc fr st hf, (fileCloseItems_proj fr _).2.1,
      atFileCloseItems_settings sfc fr st ho h]
    simp [quitActivated, ho]
  · simp [fileMenu, hf, quitActivated, fileMenuOpen]

theorem show_menu_bar_settings (sfc : Bool → Settings → Settings) (fr : Frame) (st : State) :
    (show_menu_bar sfc fr st).st.settings = (afterMenu sfc fr st).st.settings ∧
    (show_menu_bar sfc fr st).st.structurenew_window_h =
      (afterMenu sfc fr st).st.structurenew_window_h ∧
    (show_menu_bar sfc fr st).st.structureopen_window_h =
      (afterMenu sfc fr st).st.structureopen_window_h ∧
    (show_menu_bar sfc fr st).st.structureinfo_window_h =
      (afterMenu sfc fr st).st.structureinfo_window_h ∧
    (show_menu_bar sfc fr st).st.console_window_h =
      (afterMenu sfc fr st).st.console_window_h :=
  libraryFileDialog_rest fr _

theorem window_flags_toggle (sfc : Bool → Settings → Settings) (fr : Frame) (st : State) :
    (show_menu_bar sfc fr st).st.structureinfo_window_h =
      toggledIf (viewMenuOpen fr &&
          fr.MenuItem .ShowStructureInformation st.structureinfo_window_h true)
        st.structureinfo_window_h ∧
    (show_menu_bar sfc fr st).st.console_window_h =
      toggledIf (viewMenuOpen fr && fr.MenuItem .Console st.console_window_h true)
        st.console_window_h := by
  rw [(show_menu_bar_settings sfc fr st).2.2.2.1, (show_menu_bar_settings sfc fr st).2.2.2.2]
  unfold afterMenu mainMenuBar viewMenuOpen
  by_cases hb : fr.BeginMainMenuBar = true
  · simp [hb, viewMenu_flags, calculateMenu_eq, fileMenu_windows]
  · simp [hb, toggledIf]

theorem settings_flags_toggle (sfc : Bool → Settings → Settings) (fr : Frame) (st : State)
    (h : libraryEntryActivated sfc fr st = false) :
    ViewFlagsReflectLastToggle sfc fr st := by
  unfold ViewFlagsReflectLastToggle
  refine ⟨?_, ?_, ?_, ?_, (window_flags_toggle sfc fr st).1, (window_flags_toggle sfc fr st).2⟩
  all_goals
    rw [(show_menu_bar_settings sfc fr st).1]
    unfold afterMenu mainMenuBar viewMenuOpen
    by_cases hb : fr.BeginMainMenuBar = true
    · simp [hb, viewMenu_flags, calculateMenu_eq, fileMenu_settings sfc fr st hb h]
    · simp [hb, toggledIf]

theorem libraryEntryActivated_preview (sfc : Bool → Settings → Settings) (fr : Frame)
    (st : State) (hp : st.settings.preview_mode = true)
    (hmenu : ∀ m, fr.BeginMenu m false = false) :
    libraryEntryActivated sfc fr st = false := by
  have hc : crystalLibraryOpen fr st = false := by
    simp [crystalLibraryOpen, atCrystalLibrary, fileOpenItems_proj, hp, hmenu]
  have hm : moleculeLibraryOpen sfc fr st = false := by
    simp [moleculeLibraryOpen, atMoleculeLibrary, atCrystalLibrary, crystalLibraryMenu_proj,
      fileOpenItems_proj, hp, hmenu]
  simp [libraryEntryActivated, crystalEntryActivated, moleculeEntryActivated, hc, hm]

theorem afterMenu_preview (sfc : Bool → Settings → Settings) (fr : Frame) (st : State)
    (hp : st.settings.preview_mode = true)
    (hitem : ∀ it sel, fr.MenuItem it sel false = false)
    (hmenu : ∀ m, fr.BeginMenu m false = false) :
    (afterMenu sfc fr st).calls = [] ∧
    (afterMenu sfc fr st).st.getfile = st.getfile ∧
    (afterMenu sfc fr st).st.structurenew_window_h = st.structurenew_window_h ∧
    (afterMenu sfc fr st).st.structureopen_window_h = st.structureopen_window_h ∧
    (afterMenu sfc fr st).st.settings.preview_mode = true ∧
    (afterMenu sfc fr st).st.settings.want_quit =
      (st.settings.want_quit || quitActivated fr) ∧
    (afterMenu sfc fr st).st.settings.close_all_windows =
      (st.settings.close_all_windows || closeAllWindowsActivated fr) := by
  have hfile : fileMenu sfc fr { st := st, calls := [] } =
      { st := { st with settings := { st.settings with
          want_quit := st.settings.want_quit ||
            (fr.BeginMenu .File true && fr.MenuItem .Quit false true) } },
        calls := [] } := by
    unfold fileMenu
    by_cases hf : fr.BeginMenu .File true = true
    · rw [if_pos hf, fileCloseItems_eq, moleculeLibraryMenu_eq, crystalLibraryMenu_eq,
        fileOpenItems_eq]
      simp [hp, hitem, hmenu, hf]
    · simp [hf]
  unfold afterMenu mainMenuBar
  by_cases hb : fr.BeginMainMenuBar = true
  · rw [if_pos hb, hfile]
    simp [viewMenu_proj, calculateMenu_eq, hp, hitem, quitActivated, fileMenuOpen,
      closeAllWindowsActivated, viewMenuOpen, hb]
  · simp [hb, hp, quitActivated, fileMenuOpen, closeAllWindowsActivated, viewMenuOpen]

theorem getfile_runFrames (sfc : Bool → Settings → Settings) (frs : List Frame) (st : State)
    (hne : (runFrames sfc st frs).getfile ≠ 0) :
    (∃ k, lastChooseFileClick sfc st frs = some k ∧ (runFrames sfc st frs).getfile = k.mode) ∨
    (lastChooseFileClick sfc st frs = none ∧ (runFrames sfc st frs).getfile = st.getfile) := by
  induction frs generalizing st with
  | nil => exact Or.inr ⟨rfl, rfl⟩
  | cons fr frs ih =>
    have hrun : runFrames sfc st (fr :: frs) = runFrames sfc (show_menu_bar sfc fr st).st frs :=
      rfl
    rw [hrun] at hne ⊢
    rcases ih _ hne with ⟨k, hk, hg⟩ | ⟨hnone, hg⟩
    · exact Or.inl ⟨k, by simp [lastChooseFileClick, hk], hg⟩
    · have hlast : lastChooseFileClick sfc st (fr :: frs) = chooseFileClick sfc fr st := by
        simp [lastChooseFileClick, hnone]
      rw [hlast, hg]
      rw [hg] at hne
      have hstep : (show_menu_bar sfc fr st).st.getfile = (afterMenu sfc fr st).st.getfile := by
        unfold show_menu_bar at hne ⊢
        rw [libraryFileDialog_getfile] at hne ⊢
        split_ifs at hne ⊢ with hc
        · exact absurd rfl hne
        · rfl
      rw [hstep, afterMenu_getfile]
      unfold chooseFileClick
      by_cases hm : moleculeChooseFileActivated sfc fr st = true
      · exact Or.inl ⟨.molecule, by simp [hm], by simp [hm, LibraryKind.mode]⟩
      · by_cases hk : crystalChooseFileActivated fr st = true
        · exact Or.inl ⟨.crystal, by simp [hm, hk], by simp [hm, hk, LibraryKind.mode]⟩
        · exact Or.inr ⟨by simp [hm, hk], by simp [hm, hk]⟩

theorem getfile_of_last_click (sfc : Bool → Settings → Settings) (st0 : State)
    (frs : List Frame) (fr : Frame) (h0 : st0.getfile = 0)
    (hne : (afterMenu sfc fr (runFrames sfc st0 frs)).st.getfile ≠ 0) :
    ∃ k, lastChooseFileClickAt sfc st0 frs fr = some k ∧
      (afterMenu sfc fr (runFrames sfc st0 frs)).st.getfile = k.mode := by
  rw [afterMenu_getfile] at hne ⊢
  unfold lastChooseFileClickAt chooseFileClick
  by_cases hm : moleculeChooseFileActivated sfc fr (runFrames sfc st0 frs) = true
  · exact ⟨.molecule, by simp [hm], by simp [hm, LibraryKind.mode]⟩
  · by_cases hk : crystalChooseFileActivated fr (runFrames sfc st0 frs) = true
    · exact ⟨.crystal, by simp [hm, hk], by simp [hm, hk, LibraryKind.mode]⟩
    · simp only [hm, hk, Bool.false_eq_true, if_false] at hne ⊢
      rcases getfile_runFrames sfc frs st0 hne with ⟨k, hlast, hg⟩ | ⟨_, hg⟩
      · exact ⟨k, hlast, hg⟩
      · exact absurd (hg.trans h0) hne

theorem contiguous_flatMap_of_mem {α β : Type} (f : α → List β) {l : List α} {a : α}
    (h : a ∈ l) :
    f a <:+: l.flatMap f := by
  induction l with
  | nil => cases h
  | cons b l ih =>
    rw [List.flatMap_cons]
    rcases List.mem_cons.mp h with rfl | h'
    · exact ⟨[], l.flatMap f, by simp⟩
    · obtain ⟨s, t, hst⟩ := ih h'
      exact ⟨f b ++ s, t, by simp [← hst]⟩

theorem contiguous_append_right {α : Type} {l m : List α} (post : List α) (h : l <:+: m) :
    l <:+: m ++ post := by
  obtain ⟨s, t, rfl⟩ := h
  exact ⟨s, t ++ post, by simp⟩

theorem contiguous_append_left {α : Type} {l m : List α} (pre : List α) (h : l <:+: m) :
    l <:+: pre ++ m := by
  obtain ⟨s, t, rfl⟩ := h
  exact ⟨pre ++ s, t, by simp⟩

theorem show_menu_bar_calls (sfc : Bool → Settings → Settings) (fr : Frame) (st : State) :
    (show_menu_bar sfc fr st).calls =
      (if crystalLibraryOpen fr st then
        (List.range fr.nlib_crys.toNat).flatMap (crystalEntryCalls fr) else []) ++
      ((if moleculeLibraryOpen sfc fr st then
        (List.range fr.nlib_mol.toNat).flatMap (moleculeEntryCalls fr) else []) ++
      ((if closeActivated sfc fr st then [.clear_scene true] else []) ++
      ((if generateActivated sfc fr st then [.call_auto] else []) ++
      dialogCalls fr (afterMenu sfc fr st)))) := by
  unfold show_menu_bar
  rw [libraryFileDialog_calls, afterMenu_calls]
  simp only [List.append_assoc]

theorem mem_crystalEntryCalls (fr : Frame) (i : Nat) (c : Call)
    (h : c ∈ crystalEntryCalls fr i) :
    fr.MenuItem (.CrystalEntry i) false true = true ∧
      (c = .open_structure_from_library ((i : Int) + 1) 0 ∨ c = .set_flags_and_cam false) := by
  unfold crystalEntryCalls at h
  split_ifs at h with hi
  · exact ⟨hi, by simpa using h⟩
  · cases h

theorem mem_moleculeEntryCalls (fr : Frame) (i : Nat) (c : Call)
    (h : c ∈ moleculeEntryCalls fr i) :
    fr.MenuItem (.MoleculeEntry i) false true = true ∧
      (c = .open_structure_from_library ((i : Int) + 1) 1 ∨ c = .set_flags_and_cam true) := by
  unfold moleculeEntryCalls at h
  split_ifs at h with hi
  · exact ⟨hi, by simpa using h⟩
  · cases h

/-- Every logged `open_structure_from_library` or `set_flags_and_cam` call stems from
an activated library entry. -/
theorem library_call_origin (sfc : Bool → Settings → Settings) (fr : Frame) (st : State)
    (c : Call) (hc : c ∈ (show_menu_bar sfc fr st).calls)
    (hkind : (∃ k m, c = .open_structure_from_library k m) ∨ ∃ b, c = .set_flags_and_cam b) :
    (∃ i : Nat, crystalEntryActivated fr st i = true ∧
      (c = .open_structure_from_library ((i : Int) + 1) 0 ∨ c = .set_flags_and_cam false)) ∨
    (∃ i : Nat, moleculeEntryActivated sfc fr st i = true ∧
      (c = .open_structure_from_library ((i : Int) + 1) 1 ∨ c = .set_flags_and_cam true)) := by
  rw [show_menu_bar_calls] at hc
  simp only [List.mem_append] at hc
  rcases hc with h | h | h | h | h
  · left
    split_ifs at h with ho
    · obtain ⟨i, hi, hci⟩ := List.mem_flatMap.mp h
      obtain ⟨hact, hform⟩ := mem_crystalEntryCalls fr i c hci
      have hlt : (i : Int) < fr.nlib_crys := by
        have := List.mem_range.mp hi
        omega
      exact ⟨i, by simp [crystalEntryActivated, ho, hlt, hact], hform⟩
    · cases h
  · right
    split_ifs at h with ho
    · obtain ⟨i, hi, hci⟩ := List.mem_flatMap.mp h
      obtain ⟨hact, hform⟩ := mem_moleculeEntryCalls fr i c hci
      have hlt : (i : Int) < fr.nlib_mol := by
        have := List.mem_range.mp hi
        omega
      exact ⟨i, by simp [moleculeEntryActivated, ho, hlt, hact], hform⟩
    · cases h
  · exfalso
    split_ifs at h
    · rcases hkind with ⟨k, m, rfl⟩ | ⟨b, rfl⟩ <;> simp at h
    · cases h
  · exfalso
    split_ifs at h
    · rcases hkind with ⟨k, m, rfl⟩ | ⟨b, rfl⟩ <;> simp at h
    · cases h
  · exfalso
    unfold dialogCalls at h
    split_ifs at h <;> rcases hkind with ⟨k, m, rfl⟩ | ⟨b, rfl⟩ <;> simp at h

/-! ## Lemmas on the key-binding definitions -/

theorem int32_of_fits (x : Int) (h0 : -2147483648 ≤ x) (h1 : x ≤ INT_MAX) : int32 x = x := by
  unfold INT_MAX at h1
  unfold int32
  omega

theorem registerAll_eq (kb : KeyBindings) (regs : List (Nat × Nat × Nat)) :
    registerAll kb regs = { keymap := kb.keymap, callbacks := kb.callbacks ++ regs } := by
  unfold registerAll
  induction regs generalizing kb with
  | nil => simp
  | cons r regs ih =>
    rw [List.foldl_cons, ih]
    simp [RegisterCallback]

/-! ## Properties of `keybinding.h` -/

/-- Claim C5.  The seven bind actions are pairwise distinct and are exactly the
integers `0 .. BIND_MAX-1`, in that order; there are `BIND_MAX` of them and each is
smaller than `BIND_MAX`, hence an in-bounds index of a table with `BIND_MAX`
entries. -/
theorem bind_actions_enumerate :
    bindActions = List.range BIND_MAX ∧ bindActions.Nodup ∧
      bindActions.length = BIND_MAX ∧ ∀ b ∈ bindActions, b < BIND_MAX := by
  have hrange : bindActions = List.range BIND_MAX := by decide
  refine ⟨hrange, ?_, ?_, ?_⟩
  · rw [hrange]
    exact List.nodup_range BIND_MAX
  · rw [hrange]
    exact List.length_range BIND_MAX
  · intro b hb
    rw [hrange] at hb
    exact List.mem_range.mp hb

/-- Claim C5, instance: `BIND_NAV_RESET` is a bind action and is in bounds. -/
theorem bind_actions_enumerate_witness :
    BIND_NAV_RESET ∈ bindActions ∧ BIND_NAV_RESET < BIND_MAX :=
  ⟨by decide, bind_actions_enumerate.2.2.2 BIND_NAV_RESET (by decide)⟩

/-- Claim C6 (amended).  For every `GLFW_KEY_LAST` with
`0 ≤ GLFW_KEY_LAST ≤ INT_MAX - 11`, so that none of the eleven `int` sums
overflows, the mouse pseudo-key codes are `GLFW_KEY_LAST+1 .. GLFW_KEY_LAST+11`,
they are pairwise distinct, and each of them is strictly greater than
`GLFW_KEY_LAST`, differs from every key code `k ≤ GLFW_KEY_LAST`, and differs
from `NOKEY`. -/
theorem mouse_keys_beyond_keyboard (GLFW_KEY_LAST : Int) (h0 : 0 ≤ GLFW_KEY_LAST)
    (h1 : GLFW_KEY_LAST ≤ INT_MAX - 11) :
    mouseKeys GLFW_KEY_LAST =
      (List.range 11).map (fun j => GLFW_KEY_LAST + ((j : Int) + 1)) ∧
    MouseKeysBeyondKeyboard GLFW_KEY_LAST := by
  have hfit : ∀ j : Int, 1 ≤ j → j ≤ 11 → int32 (GLFW_KEY_LAST + j) = GLFW_KEY_LAST + j := by
    intro j hj1 hj2
    apply int32_of_fits
    · omega
    · omega
  have hkeys : mouseKeys GLFW_KEY_LAST =
      [GLFW_KEY_LAST + 1, GLFW_KEY_LAST + 2, GLFW_KEY_LAST + 3, GLFW_KEY_LAST + 4,
       GLFW_KEY_LAST + 5, GLFW_KEY_LAST + 6, GLFW_KEY_LAST + 7, GLFW_KEY_LAST + 8,
       GLFW_KEY_LAST + 9, GLFW_KEY_LAST + 10, GLFW_KEY_LAST + 11] := by
    simp only [mouseKeys, GLFW_MOUSE_LEFT, GLFW_MOUSE_LEFT_DOUBLE, GLFW_MOUSE_RIGHT,
      GLFW_MOUSE_RIGHT_DOUBLE, GLFW_MOUSE_MIDDLE, GLFW_MOUSE_MIDDLE_DOUBLE, GLFW_MOUSE_BUTTON3,
      GLFW_MOUSE_BUTTON3_DOUBLE, GLFW_MOUSE_BUTTON4, GLFW_MOUSE_BUTTON4_DOUBLE,
      GLFW_MOUSE_SCROLL]
    rw [hfit 1 (by decide) (by decide), hfit 2 (by decide) (by decide),
      hfit 3 (by decide) (by decide), hfit 4 (by decide) (by decide),
      hfit 5 (by decide) (by decide), hfit 6 (by decide) (by decide),
      hfit 7 (by decide) (by decide), hfit 8 (by decide) (by decide),
      hfit 9 (by decide) (by decide), hfit 10 (by decide) (by decide),
      hfit 11 (by decide) (by decide)]
  unfold MouseKeysBeyondKeyboard
  rw [hkeys]
  refine ⟨?_, ?_, ?_⟩
  · simp [List.range_succ]
  · simp
  · intro m hm
    simp only [List.mem_cons, List.mem_singleton, List.not_mem_nil, or_false] at hm
    refine ⟨by omega, fun k hk => by omega, ?_⟩
    unfold NOKEY
    omega

/-- Claim C6 (amended), instance: with the value 348 that GLFW gives
`GLFW_KEY_LAST`, the pseudo-key codes are pairwise distinct and above 348, and
`GLFW_MOUSE_SCROLL` is 359. -/
theorem mouse_keys_beyond_keyboard_witness :
    (0 : Int) ≤ 348 ∧ (348 : Int) ≤ INT_MAX - 11 ∧ MouseKeysBeyondKeyboard 348 ∧
      GLFW_MOUSE_SCROLL 348 = 359 :=
  ⟨by decide, by decide, (mouse_keys_beyond_keyboard 348 (by decide) (by decide)).2,
    by decide⟩

/-- Claim C6 as stated fails.  `GLFW_KEY_LAST = INT_MAX` is a value `≥ 0`, the
`int` sum `GLFW_KEY_LAST+1` overflows, and `GLFW_MOUSE_LEFT` is then `-2^31`, which
is not greater than `GLFW_KEY_LAST`.  (No `int` is greater than `INT_MAX`, so
this does not hang on what the overflowing sum yields.) -/
theorem mouse_key_not_above_int_max :
    (0 : Int) ≤ INT_MAX ∧ GLFW_MOUSE_LEFT INT_MAX = -2147483648 ∧
      ¬ MouseKeysBeyondKeyboard INT_MAX := by
  refine ⟨by decide, by decide, ?_⟩
  intro h
  have hlt := (h.2 (GLFW_MOUSE_LEFT INT_MAX) (by simp [mouseKeys])).1
  revert hlt
  decide

/-- Claim C7.  For every bind event `e` in `0 .. BIND_MAX-1` and every callback
`cb` registered with `RegisterCallback(e, cb, data)`, whatever is registered
afterwards, `ProcessCallbacks` invokes `cb` with `data` when bind event `e`
fires, that is, when a triple that `keymap` maps to `e` is triggered. -/
theorem registered_callbacks_dispatched (kb : KeyBindings)
    (triggered : Int × Int × Int → Bool → Bool) (e cb data : Nat)
    (later : List (Nat × Nat × Nat)) (_he : e < BIND_MAX)
    (hfire : IsBindEvent kb triggered e false = true) :
    (cb, data) ∈
      ProcessCallbacks (registerAll (RegisterCallback kb e cb data) later) triggered := by
  rw [registerAll_eq]
  unfold ProcessCallbacks
  rw [List.mem_map]
  refine ⟨(e, cb, data), ?_, rfl⟩
  rw [List.mem_filter]
  refine ⟨by simp [RegisterCallback], ?_⟩
  simpa [IsBindEvent, RegisterCallback] using hfire

/-- Claim C7, instance: a callback registered for `BIND_QUIT` is invoked when the
triple bound to `BIND_QUIT` is pressed, also after a later registration. -/
theorem registered_callbacks_dispatched_witness :
    IsBindEvent sampleKeyBindings sampleTriggered BIND_QUIT false = true ∧
    (4096, 8192) ∈
      ProcessCallbacks
        (registerAll (RegisterCallback sampleKeyBindings BIND_QUIT 4096 8192)
          [(BIND_NAV_RESET, 1, 2)])
        sampleTriggered :=
  ⟨by decide,
    registered_callbacks_dispatched sampleKeyBindings sampleTriggered BIND_QUIT 4096 8192
      [(BIND_NAV_RESET, 1, 2)] (by decide) (by decide)⟩

/-! ## Properties of `show_menu_bar` -/

/-- Claim C2.  If a library-file request is pending when the dialog block runs
(`getfile` is 1 or 2 there) and the dialog reports a cancel together with an empty
filename, then after the frame `getfile = 0` and `firstpass = true`, and
`set_library_file` is not called in the frame. -/
theorem dialog_cancelled_drops_request (sfc : Bool → Settings → Settings) (fr : Frame)
    (st : State)
    (hpending : (afterMenu sfc fr st).st.getfile = 1 ∨ (afterMenu sfc fr st).st.getfile = 2)
    (hcancel : fr.hasUserJustCancelledDialog (afterMenu sfc fr st).st.firstpass = true)
    (hempty : (fr.chooseFileDialog (afterMenu sfc fr st).st.firstpass).length = 0) :
    (show_menu_bar sfc fr st).st.getfile = 0 ∧
    (show_menu_bar sfc fr st).st.firstpass = true ∧
    ∀ filename mode, Call.set_library_file filename mode ∉ (show_menu_bar sfc fr st).calls := by
  have hne : (afterMenu sfc fr st).st.getfile ≠ 0 := by
    rcases hpending with h | h <;> rw [h] <;> decide
  unfold show_menu_bar
  refine ⟨?_, ?_, ?_⟩
  · rw [libraryFileDialog_getfile]; simp [hcancel]
  · rw [libraryFileDialog_firstpass]; simp [hne, hcancel]
  · intro filename mode hmem
    rw [libraryFileDialog_calls, List.mem_append] at hmem
    rcases hmem with h | h
    · have := (afterMenu_calls_not_dialog sfc fr st _ h).1
      simp [Call.isSetLibraryFile] at this
    · unfold dialogCalls at h
      simp [hne, hempty] at h

/-- Claim C2, instance: `Choose file` is clicked and the dialog is cancelled in the
same frame; the request is dropped and `set_library_file` is not called. -/
theorem dialog_cancelled_drops_request_witness :
    (afterMenu sfcShowCell frameChooseThenCancel sampleState).st.getfile = 1 ∧
    (show_menu_bar sfcShowCell frameChooseThenCancel sampleState).st.getfile = 0 ∧
    (show_menu_bar sfcShowCell frameChooseThenCancel sampleState).st.firstpass = true ∧
    ∀ filename mode, Call.set_library_file filename mode ∉
      (show_menu_bar sfcShowCell frameChooseThenCancel sampleState).calls :=
  ⟨by decide,
    dialog_cancelled_drops_request sfcShowCell frameChooseThenCancel sampleState
      (Or.inl (by decide)) (by decide) (by decide)⟩

/-- Claim C3.  The `set_library_file` calls of a frame are: exactly one, with the
filename the dialog returned and the value `getfile` has when the dialog block
runs, if that value is non-zero and the filename is non-empty; none otherwise
(stated once on the list of such calls and once as a membership equivalence).
The cancel flag plays no part.  After such a call `getfile = 0` and
`firstpass = true`.  The value of `getfile` when the dialog block runs is 2 if
`Choose file` of the `Molecule library` menu was activated in the frame, else 1 if
`Choose file` of the `Crystal library` menu was, else the value from the previous
frame.  Hence, in a run that starts with `getfile = 0`, whenever a request is
pending at the dialog block the value of `getfile` there is 1 if the most recent
`Choose file` click was in the `Crystal library` menu and 2 if it was in the
`Molecule library` menu. -/
theorem set_library_file_called_iff (sfc : Bool → Settings → Settings) (fr : Frame)
    (st : State) :
    (show_menu_bar sfc fr st).calls.filter Call.isSetLibraryFile =
      (if (afterMenu sfc fr st).st.getfile ≠ 0 ∧
          0 < (fr.chooseFileDialog (afterMenu sfc fr st).st.firstpass).length then
        [Call.set_library_file (fr.chooseFileDialog (afterMenu sfc fr st).st.firstpass)
          (afterMenu sfc fr st).st.getfile]
       else []) ∧
    (∀ filename mode,
      Call.set_library_file filename mode ∈ (show_menu_bar sfc fr st).calls ↔
        (afterMenu sfc fr st).st.getfile ≠ 0 ∧
        0 < (fr.chooseFileDialog (afterMenu sfc fr st).st.firstpass).length ∧
        filename = fr.chooseFileDialog (afterMenu sfc fr st).st.firstpass ∧
        mode = (afterMenu sfc fr st).st.getfile) ∧
    ((afterMenu sfc fr st).st.getfile ≠ 0 →
      0 < (fr.chooseFileDialog (afterMenu sfc fr st).st.firstpass).length →
      (show_menu_bar sfc fr st).st.getfile = 0 ∧
        (show_menu_bar sfc fr st).st.firstpass = true) ∧
    (afterMenu sfc fr st).st.getfile =
      (if moleculeChooseFileActivated sfc fr st then 2
       else if crystalChooseFileActivated fr st then 1
       else st.getfile) ∧
    (∀ st0 frs, st0.getfile = 0 → st = runFrames sfc st0 frs →
      (afterMenu sfc fr st).st.getfile ≠ 0 →
      ∃ k, lastChooseFileClickAt sfc st0 frs fr = some k ∧
        (afterMenu sfc fr st).st.getfile = k.mode) := by
  have hfilter : (show_menu_bar sfc fr st).calls.filter Call.isSetLibraryFile =
      (if (afterMenu sfc fr st).st.getfile ≠ 0 ∧
          0 < (fr.chooseFileDialog (afterMenu sfc fr st).st.firstpass).length then
        [Call.set_library_file (fr.chooseFileDialog (afterMenu sfc fr st).st.firstpass)
          (afterMenu sfc fr st).st.getfile]
       else []) := by
    unfold show_menu_bar
    rw [libraryFileDialog_calls, List.filter_append, filter_afterMenu_calls, List.nil_append]
    unfold dialogCalls
    by_cases hg : (afterMenu sfc fr st).st.getfile = 0
    · simp [hg]
    · by_cases hl : 0 < (fr.chooseFileDialog (afterMenu sfc fr st).st.firstpass).length
        <;> simp [hg, hl, Call.isSetLibraryFile, List.filter_cons]
  refine ⟨hfilter, ?_, ?_, afterMenu_getfile sfc fr st, ?_⟩
  rotate_right
  · intro st0 frs h0 hst hne
    subst hst
    exact getfile_of_last_click sfc st0 frs fr h0 hne
  · intro filename mode
    have hmem : Call.set_library_file filename mode ∈ (show_menu_bar sfc fr st).calls ↔
        Call.set_library_file filename mode ∈
          (show_menu_bar sfc fr st).calls.filter Call.isSetLibraryFile := by
      simp [List.mem_filter, Call.isSetLibraryFile]
    rw [hmem, hfilter]
    split_ifs with hc
    · simp only [List.mem_singleton, Call.set_library_file.injEq]
      exact ⟨fun h => ⟨hc.1, hc.2, h.1, h.2⟩, fun h => ⟨h.2.2.1, h.2.2.2⟩⟩
    · simp only [List.not_mem_nil, false_iff]
      exact fun h => hc ⟨h.1, h.2.1⟩
  · intro hg hl
    unfold show_menu_bar
    rw [libraryFileDialog_getfile, libraryFileDialog_firstpass]
    simp [hg, hl]

/-- Claim C3, instance: `Choose file` of the `Molecule library` menu is clicked and
the dialog returns `mol.dat`; afterwards no request is pending. -/
theorem set_library_file_called_iff_witness :
    (show_menu_bar sfcShowCell frameChooseThenPick sampleState).calls =
      [.chooseFileDialog true, .set_library_file "mol.dat" 2] ∧
    ((show_menu_bar sfcShowCell frameChooseThenPick sampleState).st.getfile = 0 ∧
      (show_menu_bar sfcShowCell frameChooseThenPick sampleState).st.firstpass = true) ∧
    ∃ k, lastChooseFileClickAt sfcShowCell sampleState [] frameChooseThenPick = some k ∧
      (afterMenu sfcShowCell frameChooseThenPick sampleState).st.getfile = k.mode :=
  ⟨by decide,
    (set_library_file_called_iff sfcShowCell frameChooseThenPick sampleState).2.2.1
      (by decide) (by decide),
    (set_library_file_called_iff sfcShowCell frameChooseThenPick sampleState).2.2.2.2
      sampleState [] rfl rfl (by decide)⟩

/-- Claim C4.  For every `i` with `0 ≤ i < nlib_crys`, activating entry `i` of the
`Crystal library` menu makes the frame call `open_structure_from_library(i+1, 0)`
immediately followed by `set_flags_and_cam(false, ..)`; likewise for entry `i` of
the `Molecule library` menu with `(i+1, 1)` and `true`.  Conversely every
`open_structure_from_library(k, m)` call of the frame has `m = 0`,
`1 ≤ k ≤ nlib_crys` and entry `k-1` of the crystal library activated, or `m = 1`,
`1 ≤ k ≤ nlib_mol` and entry `k-1` of the molecule library activated; and every
`set_flags_and_cam` call belongs to an activated entry. -/
theorem library_entries_open_structures (sfc : Bool → Settings → Settings) (fr : Frame)
    (st : State) :
    (∀ i : Nat, (i : Int) < fr.nlib_crys → crystalLibraryOpen fr st = true →
      fr.MenuItem (.CrystalEntry i) false true = true →
      [Call.open_structure_from_library ((i : Int) + 1) 0, Call.set_flags_and_cam false]
        <:+: (show_menu_bar sfc fr st).calls) ∧
    (∀ i : Nat, (i : Int) < fr.nlib_mol → moleculeLibraryOpen sfc fr st = true →
      fr.MenuItem (.MoleculeEntry i) false true = true →
      [Call.open_structure_from_library ((i : Int) + 1) 1, Call.set_flags_and_cam true]
        <:+: (show_menu_bar sfc fr st).calls) ∧
    (∀ k m, Call.open_structure_from_library k m ∈ (show_menu_bar sfc fr st).calls →
      (m = 0 ∧ 1 ≤ k ∧ k ≤ fr.nlib_crys ∧
        crystalEntryActivated fr st (k - 1).toNat = true) ∨
      (m = 1 ∧ 1 ≤ k ∧ k ≤ fr.nlib_mol ∧
        moleculeEntryActivated sfc fr st (k - 1).toNat = true)) ∧
    (∀ b, Call.set_flags_and_cam b ∈ (show_menu_bar sfc fr st).calls →
      (b = false ∧ ∃ i, crystalEntryActivated fr st i = true) ∨
      (b = true ∧ ∃ i, moleculeEntryActivated sfc fr st i = true)) := by
  refine ⟨?_, ?_, ?_, ?_⟩
  · intro i hlt ho hact
    have hi : i ∈ List.range fr.nlib_crys.toNat := List.mem_range.mpr (by omega)
    have h1 := contiguous_flatMap_of_mem (crystalEntryCalls fr) hi
    have h2 : crystalEntryCalls fr i =
        [Call.open_structure_from_library ((i : Int) + 1) 0, Call.set_flags_and_cam false] := by
      simp [crystalEntryCalls, hact]
    rw [show_menu_bar_calls, if_pos ho, ← h2]
    exact contiguous_append_right _ h1
  · intro i hlt ho hact
    have hi : i ∈ List.range fr.nlib_mol.toNat := List.mem_range.mpr (by omega)
    have h1 := contiguous_flatMap_of_mem (moleculeEntryCalls fr) hi
    have h2 : moleculeEntryCalls fr i =
        [Call.open_structure_from_library ((i : Int) + 1) 1, Call.set_flags_and_cam true] := by
      simp [moleculeEntryCalls, hact]
    rw [show_menu_bar_calls, if_pos ho, ← h2]
    exact contiguous_append_left _ (contiguous_append_right _ h1)
  · intro k m hmem
    rcases library_call_origin sfc fr st _ hmem (Or.inl ⟨k, m, rfl⟩) with
      ⟨i, hact, h⟩ | ⟨i, hact, h⟩
    · left
      rcases h with h | h
      · injection h with hk hm
        subst hk hm
        have hlt : (i : Int) < fr.nlib_crys := by
          simp [crystalEntryActivated] at hact
          exact hact.1.2
        refine ⟨rfl, by omega, by omega, ?_⟩
        simpa using hact
      · cases h
    · right
      rcases h with h | h
      · injection h with hk hm
        subst hk hm
        have hlt : (i : Int) < fr.nlib_mol := by
          simp [moleculeEntryActivated] at hact
          exact hact.1.2
        refine ⟨rfl, by omega, by omega, ?_⟩
        simpa using hact
      · cases h
  · intro b hmem
    rcases library_call_origin sfc fr st _ hmem (Or.inr ⟨b, rfl⟩) with
      ⟨i, hact, h⟩ | ⟨i, hact, h⟩
    · left
      rcases h with h | h
      · cases h
      · injection h with hb
        exact ⟨hb, i, hact⟩
    · right
      rcases h with h | h
      · cases h
      · injection h with hb
        exact ⟨hb, i, hact⟩

/-- Claim C4, instance: the first crystal-library entry is clicked; the frame calls
`open_structure_from_library(1, 0)` and then `set_flags_and_cam(false, ..)`. -/
theorem library_entries_open_structures_witness :
    [Call.open_structure_from_library (((0 : Nat) : Int) + 1) 0, Call.set_flags_and_cam false]
      <:+: (show_menu_bar sfcShowCell frameCrystalEntry sampleState).calls ∧
    (((0 : Int) = 0 ∧ (1 : Int) ≤ 1 ∧ 1 ≤ frameCrystalEntry.nlib_crys ∧
        crystalEntryActivated frameCrystalEntry sampleState ((1 : Int) - 1).toNat = true) ∨
      ((0 : Int) = 1 ∧ (1 : Int) ≤ 1 ∧ 1 ≤ frameCrystalEntry.nlib_mol ∧
        moleculeEntryActivated sfcShowCell frameCrystalEntry sampleState
          ((1 : Int) - 1).toNat = true)) :=
  ⟨(library_entries_open_structures sfcShowCell frameCrystalEntry sampleState).1 0
      (by decide) (by decide) (by decide),
    (library_entries_open_structures sfcShowCell frameCrystalEntry sampleState).2.2.1 1 0
      (by decide)⟩

/-- Claim C8.  In a state with `settings.preview_mode = true`, for a frame in
which a disabled menu item never reports activation and a disabled sub-menu never
opens, `show_menu_bar` leaves `structurenew_window_h` and `structureopen_window_h`
unchanged, the menu leaves `getfile` unchanged and the frame does not take it
from 0 to a non-zero value, and no call to `open_structure_from_library`,
`clear_scene` or `call_auto` is made.  `Quit` stays effective (`want_quit`
becomes true when it is activated) and so do the `View` items: the six flags
follow their items and `Close all windows` sets `close_all_windows`. -/
theorem preview_mode_disables_structure_changes (sfc : Bool → Settings → Settings)
    (fr : Frame) (st : State) (hp : st.settings.preview_mode = true)
    (hitem : ∀ it sel, fr.MenuItem it sel false = false)
    (hmenu : ∀ m, fr.BeginMenu m false = false) :
    (show_menu_bar sfc fr st).st.structurenew_window_h = st.structurenew_window_h ∧
    (show_menu_bar sfc fr st).st.structureopen_window_h = st.structureopen_window_h ∧
    (afterMenu sfc fr st).st.getfile = st.getfile ∧
    (st.getfile = 0 → (show_menu_bar sfc fr st).st.getfile = 0) ∧
    (∀ i m, Call.open_structure_from_library i m ∉ (show_menu_bar sfc fr st).calls) ∧
    (∀ b, Call.clear_scene b ∉ (show_menu_bar sfc fr st).calls) ∧
    Call.call_auto ∉ (show_menu_bar sfc fr st).calls ∧
    (show_menu_bar sfc fr st).st.settings.want_quit =
      (st.settings.want_quit || quitActivated fr) ∧
    (show_menu_bar sfc fr st).st.settings.close_all_windows =
      (st.settings.close_all_windows || closeAllWindowsActivated fr) ∧
    ViewFlagsReflectLastToggle sfc fr st := by
  obtain ⟨h1, h2, h3, h4, _, h6, h7⟩ := afterMenu_preview sfc fr st hp hitem hmenu
  have hs := show_menu_bar_settings sfc fr st
  have hcalls : (show_menu_bar sfc fr st).calls = dialogCalls fr (afterMenu sfc fr st) := by
    unfold show_menu_bar
    rw [libraryFileDialog_calls, h1, List.nil_append]
  refine ⟨hs.2.1.trans h3, hs.2.2.1.trans h4, h2, ?_, ?_, ?_, ?_, ?_, ?_,
    settings_flags_toggle sfc fr st (libraryEntryActivated_preview sfc fr st hp hmenu)⟩
  · intro hg
    unfold show_menu_bar
    rw [libraryFileDialog_getfile, h2, hg]
    simp
  · intro i m
    rw [hcalls]; unfold dialogCalls
    split_ifs <;> simp
  · intro b
    rw [hcalls]; unfold dialogCalls
    split_ifs <;> simp
  · rw [hcalls]; unfold dialogCalls
    split_ifs <;> simp
  · rw [hs.1, h6]
  · rw [hs.1, h7]

/-- Claim C8, instance: in preview mode every enabled widget is clicked; the
structure windows stay closed, `Quit` takes effect and `show_bonds` is toggled. -/
theorem preview_mode_disables_structure_changes_witness :
    samplePreviewState.settings.preview_mode = true ∧
    ((show_menu_bar sfcShowCell frameClickEverything samplePreviewState).st.structurenew_window_h
        = samplePreviewState.structurenew_window_h ∧
      (show_menu_bar sfcShowCell frameClickEverything samplePreviewState).st.structureopen_window_h
        = samplePreviewState.structureopen_window_h) ∧
    (show_menu_bar sfcShowCell frameClickEverything samplePreviewState).st.settings.want_quit
      = true ∧
    (show_menu_bar sfcShowCell frameClickEverything samplePreviewState).st.settings.show_bonds
      = false :=
  ⟨by decide,
    ⟨(preview_mode_disables_structure_changes sfcShowCell frameClickEverything
        samplePreviewState rfl (fun _ _ => rfl) (fun _ => rfl)).1,
      (preview_mode_disables_structure_changes sfcShowCell frameClickEverything
        samplePreviewState rfl (fun _ _ => rfl) (fun _ => rfl)).2.1⟩,
    by decide, by decide⟩

/-- Claim C9.  Start from any state with `getfile = 0` and `firstpass = true` and
run any sequence of frames `frs`, then one more frame `fr`.  At the end of that
frame `getfile` is 0, 1 or 2 and `firstpass` is true exactly when `getfile = 0`.
The dialog is invoked with `firstpass = true` exactly when the frame starts with
no request and the menu starts one (`getfile` is 0 at the start of the frame and
non-zero when the dialog block is reached), and it is invoked with
`firstpass = false` exactly when the frame starts with a request pending. -/
theorem file_dialog_state_invariant (sfc : Bool → Settings → Settings) (st0 : State)
    (frs : List Frame) (fr : Frame) (hg : st0.getfile = 0) (hf : st0.firstpass = true) :
    ((show_menu_bar sfc fr (runFrames sfc st0 frs)).st.getfile = 0 ∨
      (show_menu_bar sfc fr (runFrames sfc st0 frs)).st.getfile = 1 ∨
      (show_menu_bar sfc fr (runFrames sfc st0 frs)).st.getfile = 2) ∧
    ((show_menu_bar sfc fr (runFrames sfc st0 frs)).st.firstpass = true ↔
      (show_menu_bar sfc fr (runFrames sfc st0 frs)).st.getfile = 0) ∧
    (Call.chooseFileDialog true ∈ (show_menu_bar sfc fr (runFrames sfc st0 frs)).calls ↔
      (runFrames sfc st0 frs).getfile = 0 ∧
        (afterMenu sfc fr (runFrames sfc st0 frs)).st.getfile ≠ 0) ∧
    (Call.chooseFileDialog false ∈ (show_menu_bar sfc fr (runFrames sfc st0 frs)).calls ↔
      (runFrames sfc st0 frs).getfile ≠ 0) := by
  have h0 : DialogInv st0 := ⟨Or.inl hg, by simp [hg, hf]⟩
  have hs : DialogInv (runFrames sfc st0 frs) := dialogInv_runFrames sfc frs st0 h0
  have hr := dialogInv_step sfc fr _ hs
  refine ⟨hr.1, hr.2, ?_, ?_⟩
  · unfold show_menu_bar
    rw [libraryFileDialog_calls, List.mem_append, mem_dialogCalls_chooseFileDialog,
      afterMenu_firstpass]
    constructor
    · rintro (h | ⟨h1, h2⟩)
      · exact absurd rfl ((afterMenu_calls_not_dialog sfc fr _ _ h).2 true)
      · exact ⟨hs.2.mp h2.symm, h1⟩
    · rintro ⟨h1, h2⟩
      exact Or.inr ⟨h2, (hs.2.mpr h1).symm⟩
  · unfold show_menu_bar
    rw [libraryFileDialog_calls, List.mem_append, mem_dialogCalls_chooseFileDialog,
      afterMenu_firstpass]
    constructor
    · rintro (h | ⟨_, h2⟩)
      · exact absurd rfl ((afterMenu_calls_not_dialog sfc fr _ _ h).2 false)
      · intro h0
        rw [hs.2.mpr h0] at h2
        exact Bool.noConfusion h2
    · intro h
      refine Or.inr ⟨?_, ?_⟩
      · rw [afterMenu_getfile]
        split_ifs <;> first | decide | exact h
      · cases hfp : (runFrames sfc st0 frs).firstpass
        · rfl
        · exact absurd (hs.2.mp hfp) h

/-- Claim C9, instance: a request is started in the first frame and the dialog stays
open; in the second frame the dialog is invoked with `firstpass = false`. -/
theorem file_dialog_state_invariant_witness :
    (runFrames sfcShowCell sampleState [frameChooseThenWait]).getfile = 1 ∧
    (Call.chooseFileDialog false ∈
        (show_menu_bar sfcShowCell frameIdle
          (runFrames sfcShowCell sampleState [frameChooseThenWait])).calls ↔
      (runFrames sfcShowCell sampleState [frameChooseThenWait]).getfile ≠ 0) :=
  ⟨by decide,
    (file_dialog_state_invariant sfcShowCell sampleState [frameChooseThenWait] frameIdle
      rfl rfl).2.2.2⟩

end Critic2Gui
